import Mathlib

/-!
# The geometry codec of the Chapter-07 OCI samples

A shallow embedding of `LoadGeometry` and `PrintGeometry` (read_geom.c, and word for
word the same in read_geom_array.c) and of `StoreGeometry` (load_geom.c), followed
by the properties of the codec that were checked against them.

Conventions of the embedding.

* The vendor library (oci.h) is not part of the repository. Its two conversion
  routines are taken as a parameter `oci : OCI OCINumber double`, so every general
  statement holds for whatever the library does. The wire number type `OCINumber`
  and the C type `double` are type parameters; the only `double` the code itself
  produces is the constant `0`.
* A collection handle (`OCIColl *`) is the list of its elements: `OCICollSize` is
  the length and `OCICollGetElem` is indexing.
* A C pointer that may be `NULL` is an `Option`.
* C `int` values are integers; `/` and `%` are the truncating `Int.tdiv` and
  `Int.tmod`, and a division the C standard leaves undefined yields `none`.
* `malloc` returns memory of unspecified content. The content the decoder can
  leave visible (when a conversion fails and writes nothing) is the parameter
  `fresh : malloc_contents double`.
* A null collection is seen through its handle as a collection without elements;
  its indicator is a member of the indicator structure that the code never reads.
* The database is a list of answers to the Execute call and the Fetch calls that
  follow it. A run of a read loop ends by returning, by `exit`, in undefined
  behaviour, or with a call that the list does not answer.
-/

namespace OracleSpatial

/-! ## Vendor constants and operations (oci.h) -/

/-- The indicator type `OCIInd` of oci.h, a signed 16-bit integer. -/
abbrev OCIInd := Int

/-- Indicator value of oci.h: the value is present. -/
def OCI_IND_NOTNULL : OCIInd := 0

/-- Indicator value of oci.h: the value is null. -/
def OCI_IND_NULL : OCIInd := -1

/-- Indicator value of oci.h: the value is null because an enclosing object is. -/
def OCI_IND_BADNULL : OCIInd := -2

/-- Sign flag of `OCINumberToInt` (oci.h): unsigned result. -/
def OCI_NUMBER_UNSIGNED : Nat := 0

/-- Sign flag of `OCINumberToInt` (oci.h): signed result. -/
def OCI_NUMBER_SIGNED : Nat := 2

/-- The two numeric conversions of the vendor library that `LoadGeometry` calls.
`OCINumberToInt number sign_flag` is the `int` the call stores in its result
argument (the length argument is always `sizeof (int)`), and `OCINumberToReal number`
the `double` it stores (length `sizeof (double)`); `none` stands for a call that
returns an error status and stores nothing. -/
structure OCI (OCINumber double : Type) where
  OCINumberToInt : OCINumber → Nat → Option Int
  OCINumberToReal : OCINumber → Option double

/-- Size of a collection, as `OCICollSize` stores it in its `sb4` result. -/
def OCICollSize {α : Type} (coll : List α) : Int :=
  (coll.length : Int)

/-- Element `index` of a collection, as `OCICollGetElem` returns it; `none` when
there is no such element. -/
def OCICollGetElem {α : Type} (coll : List α) (index : Int) : Option α :=
  if index < 0 then none else coll[index.toNat]?

/-! ## Wire form (sdo_geometry.h) -/

/-- Modelled from the spec: the header sdo_geometry.h, which declares the wire
structures, is not among the sources. The point shortcut carries three scalar
fields; the field names are the ones `LoadGeometry` uses. -/
structure SDO_POINT_TYPE (OCINumber : Type) where
  X : OCINumber
  Y : OCINumber
  Z : OCINumber
deriving DecidableEq

/-- Modelled from the spec: the header sdo_geometry.h is not among the sources.
The wire value has the scalar fields `SDO_GTYPE` and `SDO_SRID`, the point
shortcut, the element-directory collection and the ordinates collection. -/
structure SDO_GEOMETRY (OCINumber : Type) where
  SDO_GTYPE : OCINumber
  SDO_SRID : OCINumber
  SDO_POINT : SDO_POINT_TYPE OCINumber
  SDO_ELEM_INFO : List OCINumber
  SDO_ORDINATES : List OCINumber
deriving DecidableEq

/-- Modelled from the spec: the header sdo_geometry.h is not among the sources.
Null indicators of the point shortcut: one for the group and one for each field. -/
structure SDO_POINT_TYPE_ind where
  _atomic : OCIInd
  X : OCIInd
  Y : OCIInd
  Z : OCIInd
deriving DecidableEq

/-- Modelled from the spec: the header sdo_geometry.h is not among the sources.
Null indicators of the wire value: one for the whole value and one for each
field. -/
structure SDO_GEOMETRY_ind where
  _atomic : OCIInd
  SDO_GTYPE : OCIInd
  SDO_SRID : OCIInd
  SDO_POINT : SDO_POINT_TYPE_ind
  SDO_ELEM_INFO : OCIInd
  SDO_ORDINATES : OCIInd
deriving DecidableEq

/-! ## Decoded form -/

/-- The C structure `struct point`. -/
structure point_struct (double : Type) where
  x : double
  y : double
  z : double
deriving DecidableEq

/-- The C structure `struct geometry`. The pointers `point`, `elem_info` and
`ordinates` are `none` when `NULL`; an array is the list of its cells. -/
structure geometry_struct (double : Type) where
  gtype : Int
  srid : Int
  point : Option (point_struct double)
  n_elem_info : Int
  elem_info : Option (List Int)
  n_ordinates : Int
  ordinates : Option (List double)
deriving DecidableEq

/-- Content of the memory `malloc` hands to `LoadGeometry`, before anything is
stored in it: the `gtype` and `srid` members of the structure and the cells of
the two arrays. The other members are always assigned. -/
structure malloc_contents (double : Type) where
  gtype : Int
  srid : Int
  elem_info : Nat → Int
  ordinates : Nat → double

/-- The macro `use_array_interface` of read_geom.c, read_geom_array.c and
load_geom.c. -/
def use_array_interface : Int := 0

/-- The loop `for (i=0; i<geometry->n_elem_info; i++)` of `LoadGeometry`: cell `i`
of the new array receives the unsigned conversion of element `i` of the
collection, and keeps its content when nothing is stored. Each pass writes cell
`i` only, so the array is the list of the cells in index order. -/
def LoadGeometry_elem_info {OCINumber double : Type} (oci : OCI OCINumber double)
    (fresh : malloc_contents double) (SDO_ELEM_INFO : List OCINumber)
    (n_elem_info : Int) : List Int :=
  (List.range n_elem_info.toNat).map fun (i : Nat) =>
    match OCICollGetElem SDO_ELEM_INFO (i : Int) with
    | some oci_number =>
      (oci.OCINumberToInt oci_number OCI_NUMBER_UNSIGNED).getD (fresh.elem_info i)
    | none => fresh.elem_info i

/-- The loop `for (i=0; i<geometry->n_ordinates; i++)` of `LoadGeometry` (the
one-at-a-time branch): cell `i` receives the conversion to `double` of element `i`
of the collection, and keeps its content when nothing is stored. -/
def LoadGeometry_ordinates {OCINumber double : Type} (oci : OCI OCINumber double)
    (fresh : malloc_contents double) (SDO_ORDINATES : List OCINumber)
    (n_ordinates : Int) : List double :=
  (List.range n_ordinates.toNat).map fun (i : Nat) =>
    match OCICollGetElem SDO_ORDINATES (i : Int) with
    | some oci_number => (oci.OCINumberToReal oci_number).getD (fresh.ordinates i)
    | none => fresh.ordinates i

/-- The routine `LoadGeometry` of read_geom.c (and read_geom_array.c), as compiled:
`use_array_interface` is defined as 0, so of the two ways of reading the ordinates
only the one-at-a-time loop is part of the program. The result is the pointer
returned: `none` is `NULL`. No status of a vendor call is looked at. -/
def LoadGeometry {OCINumber double : Type} [Zero double] (oci : OCI OCINumber double)
    (fresh : malloc_contents double) (geometry_object : SDO_GEOMETRY OCINumber)
    (geometry_object_ind : SDO_GEOMETRY_ind) : Option (geometry_struct double) :=
  if geometry_object_ind._atomic = OCI_IND_NULL then
    none
  else
    -- Extract SDO_GTYPE
    let gtype : Int :=
      if geometry_object_ind.SDO_GTYPE = OCI_IND_NOTNULL then
        (oci.OCINumberToInt geometry_object.SDO_GTYPE OCI_NUMBER_SIGNED).getD fresh.gtype
      else 0
    -- Extract SDO_SRID
    let srid : Int :=
      if geometry_object_ind.SDO_SRID = OCI_IND_NOTNULL then
        (oci.OCINumberToInt geometry_object.SDO_SRID OCI_NUMBER_SIGNED).getD fresh.srid
      else 0
    -- Extract SDO_POINT
    let point : Option (point_struct double) :=
      if geometry_object_ind.SDO_POINT._atomic = OCI_IND_NOTNULL then
        let x : double :=
          if geometry_object_ind.SDO_POINT.X = OCI_IND_NOTNULL then
            (oci.OCINumberToReal geometry_object.SDO_POINT.X).getD 0
          else 0
        let y : double :=
          if geometry_object_ind.SDO_POINT.Y = OCI_IND_NOTNULL then
            (oci.OCINumberToReal geometry_object.SDO_POINT.Y).getD 0
          else 0
        let z : double :=
          if geometry_object_ind.SDO_POINT.Z = OCI_IND_NOTNULL then
            (oci.OCINumberToReal geometry_object.SDO_POINT.Z).getD 0
          else 0
        some { x := x, y := y, z := z }
      else none
    -- Extract SDO_ELEM_INFO array
    let n_elem_info : Int := OCICollSize geometry_object.SDO_ELEM_INFO
    let elem_info : Option (List Int) :=
      if n_elem_info > 0 then
        some (LoadGeometry_elem_info oci fresh geometry_object.SDO_ELEM_INFO n_elem_info)
      else none
    -- Extract SDO_ORDINATES array
    let n_ordinates : Int := OCICollSize geometry_object.SDO_ORDINATES
    let ordinates : Option (List double) :=
      if n_ordinates > 0 then
        some (LoadGeometry_ordinates oci fresh geometry_object.SDO_ORDINATES n_ordinates)
      else none
    some { gtype := gtype, srid := srid, point := point,
           n_elem_info := n_elem_info, elem_info := elem_info,
           n_ordinates := n_ordinates, ordinates := ordinates }

/-! ## Printer -/

/-- One `printf` call of `PrintGeometry`, with the values passed to it. The text
itself is fixed by the format string named in each case. -/
inductive printed (double : Type)
  /-- The call with format "Row %d: ". -/
  | Row (row_number : Int)
  /-- The call printing "Geometry". -/
  | Geometry
  /-- The call with format "  Type: %d (%s)"; `gtype_name` is the variable as the
  switch left it, `some name` once a case has assigned it. -/
  | Type_ (gtype : Int) (gtype_name : Option String)
  /-- The call with format "  Dimensions: %d". -/
  | Dimensions (dim : Int)
  /-- The call with format "  Spatial reference system: %d". -/
  | Spatial_reference_system (srid : Int)
  /-- The call with format "  Elements: %d". -/
  | Elements (n_elements : Int)
  /-- The call with format "  Points: %d". -/
  | Points (n_points : Int)
  /-- The call printing "Detailed structure". -/
  | Detailed_structure
  /-- The call with format "  SDO_GTYPE: %d". -/
  | SDO_GTYPE (gtype : Int)
  /-- The call with format "  SDO_SRID: %d". -/
  | SDO_SRID (srid : Int)
  /-- The call with format "  SDO_POINT: (%f, %f, %f)". -/
  | SDO_POINT (x y z : double)
  /-- The call with format "  SDO_ELEM_INFO (%d elements)". -/
  | SDO_ELEM_INFO (n_elem_info : Int)
  /-- The call with format "    [%d]=%d". -/
  | elem_info (index : Int) (value : Int)
  /-- The call with format "  SDO_ORDINATES (%d elements)". -/
  | SDO_ORDINATES (n_ordinates : Int)
  /-- The call with format "    [%d]=%f". -/
  | ordinates (index : Int) (value : double)
deriving DecidableEq

/-- The least value of the C type `int` (32 bits). -/
def INT_MIN : Int := -2147483648

/-- The C expression `a / b` on `int`: `none` where the C standard leaves it
undefined (division by zero, and the quotient that does not fit). -/
def c_div (a b : Int) : Option Int :=
  if b = 0 ∨ (a = INT_MIN ∧ b = -1) then none else some (Int.tdiv a b)

/-- The `switch (gtype)` of `PrintGeometry`: the name assigned to `gtype_name`, or
`none` when no case assigns it (the variable has no initializer and the switch
has no default). -/
def gtype_name (gtype : Int) : Option String :=
  if gtype = 1 then some "POINT"
  else if gtype = 2 then some "LINESTRING"
  else if gtype = 3 then some "POLYGON"
  else if gtype = 4 then some "COLLECTION"
  else if gtype = 5 then some "MULTI-POINT"
  else if gtype = 6 then some "MULTI-LINESTRING"
  else if gtype = 7 then some "MULTI-POLYGON"
  else none

/-- The cells `array[0]` .. `array[n-1]` read by a loop `for (i=0; i<n; i++)`:
`none` when a cell read does not exist (the pointer is `NULL` or the array is
shorter than `n`); nothing is read when `n <= 0`. -/
def cells {α : Type} (array : Option (List α)) (n : Int) : Option (List α) :=
  if n ≤ 0 then some []
  else
    match array with
    | none => none
    | some l => if n.toNat ≤ l.length then some (l.take n.toNat) else none

/-- The lines of a loop `for (i=0; i<n; i++) printf ("    [%d]=...", i+1, array[i])`. -/
def indexed {α β : Type} (line : Int → α → β) (l : List α) : List β :=
  l.enum.map fun p => line ((p.1 : Int) + 1) p.2

/-- The summary block of `PrintGeometry`, printed when `print_level >= 1`; its third
call reads `gtype_name`. -/
def PrintGeometry_summary {double : Type} (geometry : geometry_struct double)
    (row_number gtype dim n_elements n_points : Int) : List (printed double) :=
  [ printed.Row row_number,
    printed.Geometry,
    printed.Type_ gtype (gtype_name gtype),
    printed.Dimensions dim,
    printed.Spatial_reference_system geometry.srid,
    printed.Elements n_elements,
    printed.Points n_points ]

/-- The detail block of `PrintGeometry`, printed when `print_level >= 2`, given the
cells the two loops read. -/
def PrintGeometry_details {double : Type} (geometry : geometry_struct double)
    (elem_info : List Int) (ordinates : List double) : List (printed double) :=
  [ printed.Detailed_structure,
    printed.SDO_GTYPE geometry.gtype,
    printed.SDO_SRID geometry.srid ]
  ++ (match geometry.point with
      | some point => [printed.SDO_POINT point.x point.y point.z]
      | none => [])
  ++ (if geometry.n_elem_info > 0 then [printed.SDO_ELEM_INFO geometry.n_elem_info] else [])
  ++ indexed printed.elem_info elem_info
  ++ (if geometry.n_ordinates > 0 then [printed.SDO_ORDINATES geometry.n_ordinates] else [])
  ++ indexed printed.ordinates ordinates

/-- The routine `PrintGeometry` of read_geom.c (and read_geom_array.c): the sequence
of `printf` calls it makes, or `none` when its behaviour is undefined (the
geometry pointer is `NULL`, the division `n_ordinates / dim` is undefined, the
summary passes to `printf` a `gtype_name` that no case of the switch has assigned,
or a loop reads a cell that does not exist). The four values `gtype`, `dim`,
`n_elements` and `n_points` are computed before `print_level` is looked at. -/
def PrintGeometry {double : Type} (geometry : Option (geometry_struct double))
    (row_number print_level : Int) : Option (List (printed double)) :=
  match geometry with
  | none => none
  | some geometry =>
    let gtype := Int.tmod geometry.gtype 1000
    let dim := Int.tdiv geometry.gtype 1000
    let n_elements := Int.tdiv geometry.n_elem_info 3
    match c_div geometry.n_ordinates dim with
    | none => none
    | some n_points =>
      if print_level ≥ 1 ∧ gtype_name gtype = none then none
      else
        let summary : List (printed double) :=
          if print_level ≥ 1 then
            PrintGeometry_summary geometry row_number gtype dim n_elements n_points
          else []
        if print_level ≥ 2 then
          match cells geometry.elem_info geometry.n_elem_info,
                cells geometry.ordinates geometry.n_ordinates with
          | some elem_info, some ordinates =>
            some (summary ++ PrintGeometry_details geometry elem_info ordinates)
          | _, _ => none
        else some summary

/-! ## Encoder (load_geom.c) -/

/-- The routine `StoreGeometry` of load_geom.c, called as
`StoreGeometry (geometry, geometry_obj, geometry_ind)`. Its body is empty: nothing
is stored through either handle, so the target wire value and its indicators are
after the call what they were before it. The handles may be `NULL` (`none`), as
they are in `LoadGeometries`. -/
def StoreGeometry {OCINumber double : Type} (_geometry : Option (geometry_struct double))
    (geometry_obj : Option (SDO_GEOMETRY OCINumber))
    (geometry_ind : Option SDO_GEOMETRY_ind) :
    Option (SDO_GEOMETRY OCINumber) × Option SDO_GEOMETRY_ind :=
  (geometry_obj, geometry_ind)

/-! ## A vendor library for worked examples -/

/-- A conversion to a 32-bit `int` on exact rational numbers: the fraction is
dropped; the call fails when the integer does not fit (the signed range with
`OCI_NUMBER_SIGNED`, the unsigned range otherwise, the unsigned result being
stored in an `int`). -/
def exact_to_int (number : ℚ) (sign_flag : Nat) : Option Int :=
  let n := Int.tdiv number.num (number.den : Int)
  if sign_flag = OCI_NUMBER_SIGNED then
    if -2147483648 ≤ n ∧ n ≤ 2147483647 then some n else none
  else
    if 0 ≤ n ∧ n ≤ 4294967295 then
      some (if n ≤ 2147483647 then n else n - 4294967296)
    else none

/-- A vendor library in which wire numbers are exact rationals, and a `double`
holds any rational exactly. -/
def oci_exact : OCI ℚ ℚ where
  OCINumberToInt := exact_to_int
  OCINumberToReal := fun number => some number

/-- A block of fresh memory for worked examples: every cell holds 0xAAAAAAAA read
as an `int`, respectively the number -1. -/
def fresh_example : malloc_contents ℚ where
  gtype := -1431655766
  srid := -1431655766
  elem_info := fun _ => -1431655766
  ordinates := fun _ => -1


/-- Worked example: a line string with one element and two points, all fields
present except the point shortcut. -/
def example_linestring : SDO_GEOMETRY ℚ where
  SDO_GTYPE := 2002
  SDO_SRID := 8307
  SDO_POINT := { X := 0, Y := 0, Z := 0 }
  SDO_ELEM_INFO := [1, 1003, 1]
  SDO_ORDINATES := [10.0, 20.0, 30.0, 40.0]

/-- Worked example: the indicators of `example_linestring`. -/
def example_linestring_ind : SDO_GEOMETRY_ind where
  _atomic := OCI_IND_NOTNULL
  SDO_GTYPE := OCI_IND_NOTNULL
  SDO_SRID := OCI_IND_NOTNULL
  SDO_POINT := { _atomic := OCI_IND_NULL, X := OCI_IND_BADNULL, Y := OCI_IND_BADNULL,
                 Z := OCI_IND_BADNULL }
  SDO_ELEM_INFO := OCI_IND_NOTNULL
  SDO_ORDINATES := OCI_IND_NOTNULL

/-- Worked example: a point given by the shortcut alone, with a null Z; the two
collections are empty. -/
def example_point : SDO_GEOMETRY ℚ where
  SDO_GTYPE := 3001
  SDO_SRID := 8307
  SDO_POINT := { X := 12.5, Y := 45.0, Z := 0 }
  SDO_ELEM_INFO := []
  SDO_ORDINATES := []

/-- Worked example: the indicators of `example_point`. -/
def example_point_ind : SDO_GEOMETRY_ind where
  _atomic := OCI_IND_NOTNULL
  SDO_GTYPE := OCI_IND_NOTNULL
  SDO_SRID := OCI_IND_NOTNULL
  SDO_POINT := { _atomic := OCI_IND_NOTNULL, X := OCI_IND_NOTNULL, Y := OCI_IND_NOTNULL,
                 Z := OCI_IND_NULL }
  SDO_ELEM_INFO := OCI_IND_NOTNULL
  SDO_ORDINATES := OCI_IND_NOTNULL

/-- Worked example: the line string with a type code that does not fit a 32-bit
`int`. -/
def example_overflow : SDO_GEOMETRY ℚ :=
  { example_linestring with SDO_GTYPE := 10000000000 }

/-- Worked example: a wire value with four element-directory slots and three
ordinates under a two-dimensional type code. -/
def example_mismatch : SDO_GEOMETRY ℚ :=
  { example_linestring with SDO_ELEM_INFO := [1, 2, 1, 5], SDO_ORDINATES := [10.0, 20.0, 30.0] }

/-- Worked example: the geometry that `example_point` decodes to. -/
def example_point_geometry : geometry_struct ℚ where
  gtype := 3001
  srid := 8307
  point := some { x := 12.5, y := 45.0, z := 0 }
  n_elem_info := 0
  elem_info := none
  n_ordinates := 0
  ordinates := none

/-- Worked example: indicators of a row whose geometry column is null. -/
def example_null_ind : SDO_GEOMETRY_ind where
  _atomic := OCI_IND_NULL
  SDO_GTYPE := OCI_IND_BADNULL
  SDO_SRID := OCI_IND_BADNULL
  SDO_POINT := { _atomic := OCI_IND_BADNULL, X := OCI_IND_BADNULL, Y := OCI_IND_BADNULL,
                 Z := OCI_IND_BADNULL }
  SDO_ELEM_INFO := OCI_IND_BADNULL
  SDO_ORDINATES := OCI_IND_BADNULL

/-- Worked example: indicators of a value that is present while every one of its
fields is null. -/
def example_all_null_ind : SDO_GEOMETRY_ind where
  _atomic := OCI_IND_NOTNULL
  SDO_GTYPE := OCI_IND_NULL
  SDO_SRID := OCI_IND_NULL
  SDO_POINT := { _atomic := OCI_IND_NULL, X := OCI_IND_BADNULL, Y := OCI_IND_BADNULL,
                 Z := OCI_IND_BADNULL }
  SDO_ELEM_INFO := OCI_IND_NULL
  SDO_ORDINATES := OCI_IND_NULL

/-- Worked example: the fields seen under `example_all_null_ind`; both collections
are without elements. -/
def example_all_null : SDO_GEOMETRY ℚ where
  SDO_GTYPE := 0
  SDO_SRID := 0
  SDO_POINT := { X := 0, Y := 0, Z := 0 }
  SDO_ELEM_INFO := []
  SDO_ORDINATES := []

/-- Worked example: indicators of a value in which the point shortcut and both
collections are present. -/
def example_point_and_arrays_ind : SDO_GEOMETRY_ind :=
  { example_linestring_ind with SDO_POINT := example_point_ind.SDO_POINT }

/-- Worked example: the line string carrying the point shortcut of `example_point`
as well. -/
def example_point_and_arrays : SDO_GEOMETRY ℚ :=
  { example_linestring with SDO_POINT := example_point.SDO_POINT }

/-- Worked example: the geometry that `example_all_null` decodes to (a present value
with a null type code). -/
def example_null_gtype_geometry : geometry_struct ℚ where
  gtype := 0
  srid := 0
  point := none
  n_elem_info := 0
  elem_info := none
  n_ordinates := 0
  ordinates := none

/-- Worked example: a geometry of shape kind 9 in three dimensions, without point,
elements or ordinates. -/
def example_kind_9_geometry : geometry_struct ℚ where
  gtype := 3009
  srid := 8307
  point := none
  n_elem_info := 0
  elem_info := none
  n_ordinates := 0
  ordinates := none

/-- Worked example: the geometry that `example_linestring` decodes to. -/
def example_linestring_geometry : geometry_struct ℚ where
  gtype := 2002
  srid := 8307
  point := none
  n_elem_info := 3
  elem_info := some [1, 1003, 1]
  n_ordinates := 4
  ordinates := some [10.0, 20.0, 30.0, 40.0]

/-- Worked example: indicators that are all `OCI_IND_BADNULL`, the one of the whole
value included. -/
def example_badnull_ind : SDO_GEOMETRY_ind where
  _atomic := OCI_IND_BADNULL
  SDO_GTYPE := OCI_IND_BADNULL
  SDO_SRID := OCI_IND_BADNULL
  SDO_POINT := { _atomic := OCI_IND_BADNULL, X := OCI_IND_BADNULL, Y := OCI_IND_BADNULL,
                 Z := OCI_IND_BADNULL }
  SDO_ELEM_INFO := OCI_IND_BADNULL
  SDO_ORDINATES := OCI_IND_BADNULL

/-! ## Read loops (read_geom.c and read_geom_array.c) -/

/-- Status of oci.h: the call succeeded. -/
def OCI_SUCCESS : Int := 0

/-- Status of oci.h: the call found no further data. -/
def OCI_NO_DATA : Int := 100

/-- How a run of a read loop ends: the routine returns (after printing its count of
rows), `ReportError` calls `exit`, the behaviour is undefined (a `NULL` pointer is
dereferenced or `PrintGeometry` is undefined), or a call to the database is left
without an answer. -/
inductive ending
  | returned
  | exit (status : Int)
  | undefined
  | unanswered
deriving DecidableEq

/-- What a run of `ReadGeometries` of read_geom.c does: the `printf` calls made by
`PrintGeometry`, in order, the value of `rows_fetched`, and how the run ends. -/
structure run (double : Type) where
  printed : List (printed double)
  rows_fetched : Int
  ending : ending
deriving DecidableEq

/-- What a run of `ReadGeometries` of read_geom_array.c does: as `run`, with the
value of `nr_fetches`. -/
structure array_run (double : Type) where
  printed : List (printed double)
  rows_fetched : Int
  nr_fetches : Int
  ending : ending
deriving DecidableEq

/-- An answer of the database to a call fetching one row: the status returned and
the row the define buffers `geometry_obj` and `geometry_ind` point to after the call
(`none` while they are `NULL`). -/
structure fetched (OCINumber : Type) where
  status : Int
  row : Option (SDO_GEOMETRY OCINumber × SDO_GEOMETRY_ind)

/-- An answer of the database to a call fetching up to `array_size` rows: the status
returned and the rows of the batch, `geometry_obj[i]` with `geometry_ind[i]` for `i`
below the count that `OCI_ATTR_ROWS_FETCHED` reports. -/
structure fetched_batch (OCINumber : Type) where
  status : Int
  rows : List (SDO_GEOMETRY OCINumber × SDO_GEOMETRY_ind)

namespace read_geom

/-- The fetch loop of `ReadGeometries` of read_geom.c, from the Execute call on: each
answer is checked (`ReportError` for a status other than `OCI_SUCCESS` and
`OCI_NO_DATA`), the loop stops at `OCI_NO_DATA`, and otherwise the loop body counts
the row, decodes it with `LoadGeometry`, hands the result to `PrintGeometry` without
looking at it, and fetches again. `fresh k` is the memory `malloc` hands out for row
`k`. -/
def ReadGeometries_loop {OCINumber double : Type} [Zero double]
    (oci : OCI OCINumber double) (fresh : Nat → malloc_contents double)
    (print_level : Int) : List (fetched OCINumber) → Int → run double
  | [], rows_fetched =>
    { printed := [], rows_fetched := rows_fetched, ending := ending.unanswered }
  | answer :: answers, rows_fetched =>
    if answer.status ≠ OCI_SUCCESS ∧ answer.status ≠ OCI_NO_DATA then
      { printed := [], rows_fetched := rows_fetched, ending := ending.exit 1 }
    else if answer.status = OCI_NO_DATA then
      { printed := [], rows_fetched := rows_fetched, ending := ending.returned }
    else
      match answer.row with
      | none =>
        { printed := [], rows_fetched := rows_fetched + 1, ending := ending.undefined }
      | some row =>
        match PrintGeometry (LoadGeometry oci (fresh (rows_fetched + 1).toNat) row.1 row.2)
            (rows_fetched + 1) print_level with
        | none =>
          { printed := [], rows_fetched := rows_fetched + 1, ending := ending.undefined }
        | some lines =>
          let rest := ReadGeometries_loop oci fresh print_level answers (rows_fetched + 1)
          { rest with printed := lines ++ rest.printed }

/-- The routine `ReadGeometries` of read_geom.c, from the Execute call to the end:
the loop started with `rows_fetched = 0`. -/
def ReadGeometries {OCINumber double : Type} [Zero double]
    (oci : OCI OCINumber double) (fresh : Nat → malloc_contents double)
    (print_level : Int) (answers : List (fetched OCINumber)) : run double :=
  ReadGeometries_loop oci fresh print_level answers 0

end read_geom

namespace read_geom_array

/-- The loop `for (i=0; i<rows_in_batch; i++)` of `ReadGeometries` of
read_geom_array.c: each row of the batch is counted, decoded and handed to
`PrintGeometry` without a look at the result. The third component is `false` when
the loop runs into undefined behaviour. -/
def ReadGeometries_batch {OCINumber double : Type} [Zero double]
    (oci : OCI OCINumber double) (fresh : Nat → malloc_contents double)
    (print_level : Int) :
    List (SDO_GEOMETRY OCINumber × SDO_GEOMETRY_ind) → Int →
      List (printed double) × Int × Bool
  | [], rows_fetched => ([], rows_fetched, true)
  | row :: rows, rows_fetched =>
    match PrintGeometry (LoadGeometry oci (fresh (rows_fetched + 1).toNat) row.1 row.2)
        (rows_fetched + 1) print_level with
    | none => ([], rows_fetched + 1, false)
    | some lines =>
      let rest := ReadGeometries_batch oci fresh print_level rows (rows_fetched + 1)
      (lines ++ rest.1, rest.2.1, rest.2.2)

/-- The do-while loop of `ReadGeometries` of read_geom_array.c, from the Execute call
on: each answer is checked (`ReportError` for a status other than `OCI_SUCCESS` and
`OCI_NO_DATA`), the batch is counted and processed, and a further batch is fetched
unless the status was `OCI_NO_DATA`. -/
def ReadGeometries_loop {OCINumber double : Type} [Zero double]
    (oci : OCI OCINumber double) (fresh : Nat → malloc_contents double)
    (print_level : Int) : List (fetched_batch OCINumber) → Int → Int → array_run double
  | [], rows_fetched, nr_fetches =>
    { printed := [], rows_fetched := rows_fetched, nr_fetches := nr_fetches,
      ending := ending.unanswered }
  | answer :: answers, rows_fetched, nr_fetches =>
    if answer.status ≠ OCI_SUCCESS ∧ answer.status ≠ OCI_NO_DATA then
      { printed := [], rows_fetched := rows_fetched, nr_fetches := nr_fetches,
        ending := ending.exit 1 }
    else
      let batch := ReadGeometries_batch oci fresh print_level answer.rows rows_fetched
      if batch.2.2 = false then
        { printed := batch.1, rows_fetched := batch.2.1, nr_fetches := nr_fetches + 1,
          ending := ending.undefined }
      else if answer.status = OCI_NO_DATA then
        { printed := batch.1, rows_fetched := batch.2.1, nr_fetches := nr_fetches + 1,
          ending := ending.returned }
      else
        let rest := ReadGeometries_loop oci fresh print_level answers batch.2.1
          (nr_fetches + 1)
        { rest with printed := batch.1 ++ rest.printed }

/-- The routine `ReadGeometries` of read_geom_array.c, from the Execute call to the
end: the loop started with `rows_fetched = 0` and `nr_fetches = 0`. -/
def ReadGeometries {OCINumber double : Type} [Zero double]
    (oci : OCI OCINumber double) (fresh : Nat → malloc_contents double)
    (print_level : Int) (answers : List (fetched_batch OCINumber)) : array_run double :=
  ReadGeometries_loop oci fresh print_level answers 0 0

end read_geom_array

/-- The answers of a database holding the result set `rows` to a program that
fetches one row per call: `OCI_SUCCESS` with each row in turn, then `OCI_NO_DATA`. -/
def answers_by_row {OCINumber : Type}
    (rows : List (SDO_GEOMETRY OCINumber × SDO_GEOMETRY_ind)) : List (fetched OCINumber) :=
  rows.map (fun row => { status := OCI_SUCCESS, row := some row })
    ++ [{ status := OCI_NO_DATA, row := none }]

/-- The answers of a database holding the result set `rows` to a program that
fetches `array_size` rows per call, as the comment in `ReadGeometries` of
read_geom_array.c describes them: a full batch comes with `OCI_SUCCESS`, and the
batch that comes with `OCI_NO_DATA` is the last one, holding the rows that were
left. `fuel` bounds the number of calls answered. -/
def answers_by_batch_upto {OCINumber : Type} (array_size : Nat) :
    Nat → List (SDO_GEOMETRY OCINumber × SDO_GEOMETRY_ind) → List (fetched_batch OCINumber)
  | 0, _ => []
  | fuel + 1, rows =>
    if rows.length < array_size then
      [{ status := OCI_NO_DATA, rows := rows }]
    else
      { status := OCI_SUCCESS, rows := rows.take array_size }
        :: answers_by_batch_upto array_size fuel (rows.drop array_size)

/-- The answers of a database holding the result set `rows` to a program that
fetches `array_size` rows per call; with a positive `array_size` there are at most
`rows.length + 1` of them. -/
def answers_by_batch {OCINumber : Type} (array_size : Nat)
    (rows : List (SDO_GEOMETRY OCINumber × SDO_GEOMETRY_ind)) :
    List (fetched_batch OCINumber) :=
  answers_by_batch_upto array_size (rows.length + 1) rows

/-- Stated from the claim, for comparison with the two read loops: every row of the
result set is decoded on its own and printed under its number, counted from
`rows_fetched + 1`, in the order of the result set; the run stops where printing a
row is undefined. -/
def each_row_in_turn {OCINumber double : Type} [Zero double]
    (oci : OCI OCINumber double) (fresh : Nat → malloc_contents double)
    (print_level : Int) :
    List (SDO_GEOMETRY OCINumber × SDO_GEOMETRY_ind) → Int → run double
  | [], rows_fetched =>
    { printed := [], rows_fetched := rows_fetched, ending := ending.returned }
  | row :: rows, rows_fetched =>
    match PrintGeometry (LoadGeometry oci (fresh (rows_fetched + 1).toNat) row.1 row.2)
        (rows_fetched + 1) print_level with
    | none =>
      { printed := [], rows_fetched := rows_fetched + 1, ending := ending.undefined }
    | some lines =>
      let rest := each_row_in_turn oci fresh print_level rows (rows_fetched + 1)
      { rest with printed := lines ++ rest.printed }


/-- Worked example: the same fresh memory for every row. -/
def fresh_examples : Nat → malloc_contents ℚ :=
  fun _ => fresh_example

/-- Worked example: a result set of three rows, none of them null. -/
def example_rows : List (SDO_GEOMETRY ℚ × SDO_GEOMETRY_ind) :=
  [(example_linestring, example_linestring_ind), (example_point, example_point_ind),
   (example_mismatch, example_linestring_ind)]

/-- Worked example: a result set whose second row has a null geometry column. -/
def example_rows_with_null : List (SDO_GEOMETRY ℚ × SDO_GEOMETRY_ind) :=
  [(example_point, example_point_ind), (example_linestring, example_null_ind),
   (example_linestring, example_linestring_ind)]

/-! ## Load path (load_geom.c) -/

namespace load_geom

/-- What a run of `LoadGeometries` does, from the first call of
`ReadGeometryFromFile` on: the value of `rows_loaded` and how the run ends. -/
structure load_run where
  rows_loaded : Int
  ending : ending
deriving DecidableEq

/-- The routine `ReadGeometryFromFile` of load_geom.c. Its body is empty: nothing is
read from the input file, and control reaches the end of the function without a
`return`. The first component is the value handed to the caller, `none` when no
value is returned at all (`some none` would be `NULL`); the second is what is left
of the input file, its lines here. -/
def ReadGeometryFromFile {double : Type} (input_file : List String) :
    Option (Option (geometry_struct double)) × List String :=
  (none, input_file)

/-- The while loop of `LoadGeometries` of load_geom.c, entered with the result of a
call of `ReadGeometryFromFile`: the loop test uses that result (undefined when no
value was returned), and the body counts the row, calls `StoreGeometry` on the
handles `geometry_obj` and `geometry_ind`, which are `NULL`, executes the insert
statement (`ReportError` unless its status is `OCI_SUCCESS`) and reads the next
geometry. `answers` are the statuses of the Execute calls. -/
def LoadGeometries_loop {double : Type} (input_file : List String) :
    List Int → Option (Option (geometry_struct double)) → Int → load_run
  | _, none, rows_loaded => { rows_loaded := rows_loaded, ending := ending.undefined }
  | _, some none, rows_loaded => { rows_loaded := rows_loaded, ending := ending.returned }
  | [], some (some _), rows_loaded =>
    { rows_loaded := rows_loaded + 1, ending := ending.unanswered }
  | status :: answers, some (some _), rows_loaded =>
    if status ≠ OCI_SUCCESS then
      { rows_loaded := rows_loaded + 1, ending := ending.exit 1 }
    else
      LoadGeometries_loop input_file answers
        (@ReadGeometryFromFile double input_file).1 (rows_loaded + 1)

/-- The routine `LoadGeometries` of load_geom.c, from the first call of
`ReadGeometryFromFile` to the end. -/
def LoadGeometries {double : Type} (input_file : List String) (answers : List Int) :
    load_run :=
  LoadGeometries_loop input_file answers
    (@ReadGeometryFromFile double input_file).1 0

end load_geom

/-! ## Array fetches of plain columns (read_points_array.c, oci_sample_array.c) -/

/-- An answer of the database to a call fetching up to `array_size` rows of plain
columns: the status returned and the rows of the batch, as many as
`OCI_ATTR_ROWS_FETCHED` reports. -/
structure fetched_array (α : Type) where
  status : Int
  rows : List α

/-- What a run of `ReadPoints` or `ReadCities` does: the `printf` calls of the
display loop, each with the row number and the columns passed to it, the values of
`rows_fetched` and `nr_fetches`, and how the run ends. -/
structure array_display_run (α : Type) where
  printed : List (Int × α)
  rows_fetched : Int
  nr_fetches : Int
  ending : ending

namespace array_fetch

/-- The loop `for (i=0; i<rows_in_batch; i++)` that `ReadPoints` of
read_points_array.c and `ReadCities` of oci_sample_array.c share: each row of the
batch is counted and printed under its count. -/
def display_batch {α : Type} : List α → Int → List (Int × α) × Int
  | [], rows_fetched => ([], rows_fetched)
  | row :: rows, rows_fetched =>
    let rest := display_batch rows (rows_fetched + 1)
    ((rows_fetched + 1, row) :: rest.1, rest.2)

/-- The do-while loop that `ReadPoints` of read_points_array.c and `ReadCities` of
oci_sample_array.c share word for word, from the Execute call on: each answer is
checked (`ReportError` for a status other than `OCI_SUCCESS` and `OCI_NO_DATA`),
the batch is counted and displayed, and a further batch is fetched unless the
status was `OCI_NO_DATA`. -/
def loop {α : Type} : List (fetched_array α) → Int → Int → array_display_run α
  | [], rows_fetched, nr_fetches =>
    { printed := [], rows_fetched := rows_fetched, nr_fetches := nr_fetches,
      ending := ending.unanswered }
  | answer :: answers, rows_fetched, nr_fetches =>
    if answer.status ≠ OCI_SUCCESS ∧ answer.status ≠ OCI_NO_DATA then
      { printed := [], rows_fetched := rows_fetched, nr_fetches := nr_fetches,
        ending := ending.exit 1 }
    else
      let batch := display_batch answer.rows rows_fetched
      if answer.status = OCI_NO_DATA then
        { printed := batch.1, rows_fetched := batch.2, nr_fetches := nr_fetches + 1,
          ending := ending.returned }
      else
        let rest := loop answers batch.2 (nr_fetches + 1)
        { rest with printed := batch.1 ++ rest.printed }

end array_fetch

namespace read_points_array

/-- The routine `ReadPoints` of read_points_array.c, from the Execute call to the
end; a row is the pair `point_x[i]`, `point_y[i]`. -/
def ReadPoints {double : Type} (answers : List (fetched_array (double × double))) :
    array_display_run (double × double) :=
  array_fetch.loop answers 0 0

end read_points_array

namespace oci_sample_array

/-- A row of `ReadCities`: the columns `id[i]`, `city[i]`, `state_abrv[i]`,
`pop90[i]` and `rank90[i]`. -/
structure city_row (double : Type) where
  id : Int
  city : String
  state_abrv : String
  pop90 : double
  rank90 : Int

/-- The routine `ReadCities` of oci_sample_array.c, from the Execute call to the
end. -/
def ReadCities {double : Type} (answers : List (fetched_array (city_row double))) :
    array_display_run (city_row double) :=
  array_fetch.loop answers 0 0

end oci_sample_array

/-! ## Command lines of the array programs -/

/-- The digits read by the C library function `atoi`, accumulated in base ten up to
the first character that is no digit. -/
def atoi_digits : List Char → Int → Int
  | [], value => value
  | c :: cs, value =>
    if c.isDigit then atoi_digits cs (value * 10 + ((c.toNat : Int) - 48)) else value

/-- The greatest value of the C type `int` (32 bits). -/
def INT_MAX : Int := 2147483647

/-- The C library function `isspace` in the "C" locale: the space, and the control
characters from horizontal tab (9) to carriage return (13), vertical tab and form
feed among them. -/
def isspace (c : Char) : Bool :=
  c.toNat = 32 || (9 ≤ c.toNat && c.toNat ≤ 13)

/-- The C library function `atoi` (not part of the repository), as the C standard
describes it: white space is skipped, a sign is read, then decimal digits up to the
first other character; `none` when the value does not fit an `int`, where the
standard leaves the behaviour undefined. -/
def atoi (nptr : String) : Option Int :=
  let value : Int :=
    match nptr.data.dropWhile isspace with
    | '-' :: cs => - atoi_digits cs 0
    | '+' :: cs => atoi_digits cs 0
    | cs => atoi_digits cs 0
  if INT_MIN ≤ value ∧ value ≤ INT_MAX then some value else none

/-- What `main` of an array program does with its command line: it prints the usage
line and calls `exit (1)`, or prints "Invalid array size: must be positive" and calls
`exit (1)`, or goes on to connect and calls its read routine with `array_size`; or
its behaviour is undefined (an argument of `atoi` that does not fit an `int`). -/
inductive main_outcome
  | usage
  | invalid_array_size
  | reads (array_size : Int)
  | undefined
deriving DecidableEq

namespace read_geom_array

/-- The handling of the command line in `main` of read_geom_array.c; `argc` is the
length of `argv`. `print_level = atoi (argv[5])` is read before `array_size`. -/
def main (argv : List String) : main_outcome :=
  if argv.length < 6 ∨ argv.length > 7 then main_outcome.usage
  else
    match atoi (argv.getD 5 "") with
    | none => main_outcome.undefined
    | some _ =>
      match (if argv.length > 6 then atoi (argv.getD 6 "") else some 10) with
      | none => main_outcome.undefined
      | some array_size =>
        if array_size ≤ 0 then main_outcome.invalid_array_size
        else main_outcome.reads array_size

end read_geom_array

namespace read_points_array

/-- The handling of the command line in `main` of read_points_array.c; `argc` is the
length of `argv`. -/
def main (argv : List String) : main_outcome :=
  if argv.length < 6 ∨ argv.length > 7 then main_outcome.usage
  else
    match (if argv.length > 6 then atoi (argv.getD 6 "") else some 10) with
    | none => main_outcome.undefined
    | some array_size =>
      if array_size ≤ 0 then main_outcome.invalid_array_size
      else main_outcome.reads array_size

end read_points_array

namespace oci_sample_array

/-- The handling of the command line in `main` of oci_sample_array.c; `argc` is the
length of `argv`. The value of `array_size` is passed on as it is. -/
def main (argv : List String) : main_outcome :=
  if argv.length < 3 ∨ argv.length > 5 then main_outcome.usage
  else
    match (if argv.length > 4 then atoi (argv.getD 4 "") else some 10) with
    | none => main_outcome.undefined
    | some array_size => main_outcome.reads array_size

end oci_sample_array

/-! ## The collection array interface (branch of `LoadGeometry` under `use_array_interface`) -/

/-- The two routines of the vendor library called by the branch of `LoadGeometry`
that is compiled when `use_array_interface` is not 0. `OCICollGetElemArray coll` is
the status of the call that addresses all elements of the collection from index 0;
`OCINumberToRealArray numbers` is the array of `double` the conversion call stores,
`none` when it returns an error and stores nothing. -/
structure OCI_array_interface (OCINumber double : Type) where
  OCICollGetElemArray : List OCINumber → Int
  OCINumberToRealArray : List OCINumber → Option (List double)

/-- What the array-interface branch does: the calls
`printf ("global_oci_number[%d]=%0X\n", i, global_oci_number[0])`, each given by its
index `i`, and the array of ordinates it leaves, `none` when `ReportError` ended the
program. -/
structure array_interface_run (double : Type) where
  printed : List Int
  ordinates : Option (List double)
deriving DecidableEq

/-- The branch `if (use_array_interface)` of `LoadGeometry`, entered with
`n_ordinates > 0`: the elements are addressed in one call (`ReportError` unless its
status is `OCI_SUCCESS`), one line is printed for each of them, and all are
converted in one call; the cells keep their content when nothing is stored. -/
def LoadGeometry_ordinates_array_interface {OCINumber double : Type}
    (vendor : OCI_array_interface OCINumber double) (fresh : malloc_contents double)
    (SDO_ORDINATES : List OCINumber) (n_ordinates : Int) : array_interface_run double :=
  if vendor.OCICollGetElemArray SDO_ORDINATES ≠ OCI_SUCCESS then
    { printed := [], ordinates := none }
  else
    { printed := (List.range n_ordinates.toNat).map fun (i : Nat) => (i : Int),
      ordinates := some ((vendor.OCINumberToRealArray SDO_ORDINATES).getD
        ((List.range n_ordinates.toNat).map fresh.ordinates)) }

/-- A vendor array interface for worked examples, on exact rationals: the elements
are always addressed, and each is converted as `oci_exact` converts it. -/
def oci_array_exact : OCI_array_interface ℚ ℚ where
  OCICollGetElemArray := fun _ => OCI_SUCCESS
  OCINumberToRealArray := fun numbers => some numbers

/-! ## Null indicators of plain columns (select_pois.c) -/

namespace select_pois

/-- The constant `PHONE_NUMBER_LENGTH` of select_pois.c. -/
def PHONE_NUMBER_LENGTH : Nat := 15

/-- An answer of the database to a call fetching one row in `ReadPois`: the status
returned, and the content of the output variables `id`, `poi_name` and
`phone_number` and of the indicator `phone_number_ind` after the call. -/
structure poi_fetched where
  status : Int
  id : Int
  poi_name : String
  phone_number : String
  phone_number_ind : OCIInd

/-- The call `printf ("%d: %d %*s %s\n", rows_fetched, id, POI_NAME_LENGTH, poi_name,
phone_number)` with the values passed to it. -/
structure poi_line where
  rows_fetched : Int
  id : Int
  poi_name : String
  phone_number : String
deriving DecidableEq

/-- What a run of `ReadPois` does, from the Execute call on. -/
structure poi_run where
  printed : List poi_line
  rows_fetched : Int
  ending : ending
deriving DecidableEq

/-- The fetch loop of `ReadPois` of select_pois.c, from the Execute call on: each
answer is checked, the loop stops at `OCI_NO_DATA`, and otherwise the row is counted,
`phone_number` is overwritten with "NO TELEPHONE" when its indicator is
`OCI_IND_NULL`, and the line is printed. -/
def ReadPois_loop : List poi_fetched → Int → poi_run
  | [], rows_fetched =>
    { printed := [], rows_fetched := rows_fetched, ending := ending.unanswered }
  | answer :: answers, rows_fetched =>
    if answer.status ≠ OCI_SUCCESS ∧ answer.status ≠ OCI_NO_DATA then
      { printed := [], rows_fetched := rows_fetched, ending := ending.exit 1 }
    else if answer.status = OCI_NO_DATA then
      { printed := [], rows_fetched := rows_fetched, ending := ending.returned }
    else
      let phone_number : String :=
        if answer.phone_number_ind = OCI_IND_NULL then "NO TELEPHONE"
        else answer.phone_number
      let rest := ReadPois_loop answers (rows_fetched + 1)
      { rest with
        printed := { rows_fetched := rows_fetched + 1, id := answer.id,
                     poi_name := answer.poi_name, phone_number := phone_number }
          :: rest.printed }

/-- The routine `ReadPois` of select_pois.c, from the Execute call to the end. -/
def ReadPois (answers : List poi_fetched) : poi_run :=
  ReadPois_loop answers 0

end select_pois

/-- Worked example: an input file of two records in the format of load_geom.c. -/
def example_input_file : List String :=
  ["1 2 2 10.0 20.0 30.0 40.0", "2 1 2 12.5 45.0"]

/-- Worked example: three rows fetched by `ReadPois`, the second with a null phone
number (its buffer still holds the number of the row before), and the end of data. -/
def example_pois : List select_pois.poi_fetched :=
  [{ status := OCI_SUCCESS, id := 7, poi_name := "CITY HALL",
     phone_number := "4155554000", phone_number_ind := OCI_IND_NOTNULL },
   { status := OCI_SUCCESS, id := 9, poi_name := "OLD FORT",
     phone_number := "4155554000", phone_number_ind := OCI_IND_NULL },
   { status := OCI_SUCCESS, id := 12, poi_name := "PIER 39",
     phone_number := "4155551212", phone_number_ind := OCI_IND_NOTNULL }]

/-- Worked example: the answer that ends the data of `example_pois`. -/
def example_pois_end : select_pois.poi_fetched :=
  { status := OCI_NO_DATA, id := 12, poi_name := "PIER 39",
    phone_number := "4155551212", phone_number_ind := OCI_IND_NOTNULL }

/-- Status of oci.h: the call failed. -/
def OCI_ERROR : Int := -1

/-- Worked example: two batches of points with `OCI_SUCCESS`, read three at a time. -/
def example_point_batches : List (fetched_array (ℚ × ℚ)) :=
  [{ status := OCI_SUCCESS, rows := [(1.5, 2.5), (3.5, 4.5), (5.5, 6.5)] },
   { status := OCI_SUCCESS, rows := [(7.5, 8.5), (9.5, 10.5), (11.5, 12.5)] }]

/-- Worked example: the last batch of points, with `OCI_NO_DATA`. -/
def example_point_last_batch : fetched_array (ℚ × ℚ) :=
  { status := OCI_NO_DATA, rows := [(13.5, 14.5)] }

/-- Worked example: a batch of two cities with `OCI_SUCCESS`. -/
def example_city_batches : List (fetched_array (oci_sample_array.city_row ℚ)) :=
  [{ status := OCI_SUCCESS,
     rows := [{ id := 1, city := "New York", state_abrv := "NY", pop90 := 7322564,
                rank90 := 1 },
              { id := 2, city := "Los Angeles", state_abrv := "CA", pop90 := 3485398,
                rank90 := 2 }] }]

/-- Worked example: the last batch of cities, with `OCI_NO_DATA` and no row. -/
def example_city_last_batch : fetched_array (oci_sample_array.city_row ℚ) :=
  { status := OCI_NO_DATA, rows := [] }

/-- Worked example: a batch of two geometry rows with `OCI_SUCCESS`. -/
def example_geometry_batches : List (fetched_batch ℚ) :=
  [{ status := OCI_SUCCESS,
     rows := [(example_linestring, example_linestring_ind),
              (example_point, example_point_ind)] }]

/-- Worked example: the last batch of geometry rows, with `OCI_NO_DATA`. -/
def example_geometry_last_batch : fetched_batch ℚ :=
  { status := OCI_NO_DATA, rows := [(example_mismatch, example_linestring_ind)] }

/-! ## Basic facts about the decoder -/

section lemmas

variable {OCINumber double : Type}

theorem OCICollGetElem_of_lt (coll : List OCINumber) (i : Nat) (hi : i < coll.length) :
    OCICollGetElem coll (i : Int) = some coll[i] := by
  have h0 : ¬ ((i : Int) < 0) := by omega
  simp [OCICollGetElem, h0, List.getElem?_eq_getElem hi]

theorem LoadGeometry_elem_info_length (oci : OCI OCINumber double)
    (fresh : malloc_contents double) (coll : List OCINumber) (n : Int) :
    (LoadGeometry_elem_info oci fresh coll n).length = n.toNat := by
  simp [LoadGeometry_elem_info]

theorem LoadGeometry_ordinates_length (oci : OCI OCINumber double)
    (fresh : malloc_contents double) (coll : List OCINumber) (n : Int) :
    (LoadGeometry_ordinates oci fresh coll n).length = n.toNat := by
  simp [LoadGeometry_ordinates]

theorem LoadGeometry_elem_info_cell (oci : OCI OCINumber double)
    (fresh : malloc_contents double) (coll : List OCINumber) (i : Nat)
    (hi : i < coll.length) (v : Int)
    (hv : oci.OCINumberToInt coll[i] OCI_NUMBER_UNSIGNED = some v) :
    (LoadGeometry_elem_info oci fresh coll (OCICollSize coll))[i]? = some v := by
  have hr : i < (OCICollSize coll).toNat := by simpa [OCICollSize] using hi
  simp [LoadGeometry_elem_info, List.getElem?_map, List.getElem?_range hr,
    OCICollGetElem_of_lt coll i hi, hv]

theorem LoadGeometry_ordinates_cell (oci : OCI OCINumber double)
    (fresh : malloc_contents double) (coll : List OCINumber) (i : Nat)
    (hi : i < coll.length) (v : double)
    (hv : oci.OCINumberToReal coll[i] = some v) :
    (LoadGeometry_ordinates oci fresh coll (OCICollSize coll))[i]? = some v := by
  have hr : i < (OCICollSize coll).toNat := by simpa [OCICollSize] using hi
  simp [LoadGeometry_ordinates, List.getElem?_map, List.getElem?_range hr,
    OCICollGetElem_of_lt coll i hi, hv]

theorem LoadGeometry_elem_info_written (oci : OCI OCINumber double)
    (fresh other : malloc_contents double) (coll : List OCINumber)
    (hall : ∀ number ∈ coll, (oci.OCINumberToInt number OCI_NUMBER_UNSIGNED).isSome) :
    LoadGeometry_elem_info oci fresh coll (OCICollSize coll)
      = LoadGeometry_elem_info oci other coll (OCICollSize coll) := by
  unfold LoadGeometry_elem_info
  apply List.map_congr_left
  intro i hi
  have hlt : i < coll.length := by simpa [OCICollSize] using hi
  obtain ⟨v, hv⟩ := Option.isSome_iff_exists.mp (hall _ (List.getElem_mem hlt))
  simp [OCICollGetElem_of_lt coll i hlt, hv]

theorem LoadGeometry_ordinates_written (oci : OCI OCINumber double)
    (fresh other : malloc_contents double) (coll : List OCINumber)
    (hall : ∀ number ∈ coll, (oci.OCINumberToReal number).isSome) :
    LoadGeometry_ordinates oci fresh coll (OCICollSize coll)
      = LoadGeometry_ordinates oci other coll (OCICollSize coll) := by
  unfold LoadGeometry_ordinates
  apply List.map_congr_left
  intro i hi
  have hlt : i < coll.length := by simpa [OCICollSize] using hi
  obtain ⟨v, hv⟩ := Option.isSome_iff_exists.mp (hall _ (List.getElem_mem hlt))
  simp [OCICollGetElem_of_lt coll i hlt, hv]

theorem LoadGeometry_null_of_null [Zero double] (oci : OCI OCINumber double)
    (fresh : malloc_contents double) (geometry_object : SDO_GEOMETRY OCINumber)
    (geometry_object_ind : SDO_GEOMETRY_ind)
    (h : geometry_object_ind._atomic = OCI_IND_NULL) :
    LoadGeometry oci fresh geometry_object geometry_object_ind = none := by
  simp only [LoadGeometry, if_pos h]

/-- With a whole-value indicator other than `OCI_IND_NULL` the decoder goes through
all five extractions and returns the structure it has filled. -/
theorem LoadGeometry_of_not_null [Zero double] (oci : OCI OCINumber double)
    (fresh : malloc_contents double) (geometry_object : SDO_GEOMETRY OCINumber)
    (geometry_object_ind : SDO_GEOMETRY_ind)
    (h : geometry_object_ind._atomic ≠ OCI_IND_NULL) :
    LoadGeometry oci fresh geometry_object geometry_object_ind = some
      { gtype :=
          if geometry_object_ind.SDO_GTYPE = OCI_IND_NOTNULL then
            (oci.OCINumberToInt geometry_object.SDO_GTYPE OCI_NUMBER_SIGNED).getD fresh.gtype
          else 0
        srid :=
          if geometry_object_ind.SDO_SRID = OCI_IND_NOTNULL then
            (oci.OCINumberToInt geometry_object.SDO_SRID OCI_NUMBER_SIGNED).getD fresh.srid
          else 0
        point :=
          if geometry_object_ind.SDO_POINT._atomic = OCI_IND_NOTNULL then
            some
              { x :=
                  if geometry_object_ind.SDO_POINT.X = OCI_IND_NOTNULL then
                    (oci.OCINumberToReal geometry_object.SDO_POINT.X).getD 0
                  else 0
                y :=
                  if geometry_object_ind.SDO_POINT.Y = OCI_IND_NOTNULL then
                    (oci.OCINumberToReal geometry_object.SDO_POINT.Y).getD 0
                  else 0
                z :=
                  if geometry_object_ind.SDO_POINT.Z = OCI_IND_NOTNULL then
                    (oci.OCINumberToReal geometry_object.SDO_POINT.Z).getD 0
                  else 0 }
          else none
        n_elem_info := OCICollSize geometry_object.SDO_ELEM_INFO
        elem_info :=
          if OCICollSize geometry_object.SDO_ELEM_INFO > 0 then
            some (LoadGeometry_elem_info oci fresh geometry_object.SDO_ELEM_INFO
              (OCICollSize geometry_object.SDO_ELEM_INFO))
          else none
        n_ordinates := OCICollSize geometry_object.SDO_ORDINATES
        ordinates :=
          if OCICollSize geometry_object.SDO_ORDINATES > 0 then
            some (LoadGeometry_ordinates oci fresh geometry_object.SDO_ORDINATES
              (OCICollSize geometry_object.SDO_ORDINATES))
          else none } := by
  simp only [LoadGeometry, if_neg h]

/-- The collection part of any geometry the decoder returns. -/
theorem LoadGeometry_collections [Zero double] (oci : OCI OCINumber double)
    (fresh : malloc_contents double) (geometry_object : SDO_GEOMETRY OCINumber)
    (geometry_object_ind : SDO_GEOMETRY_ind) (geometry : geometry_struct double)
    (h : LoadGeometry oci fresh geometry_object geometry_object_ind = some geometry) :
    geometry.n_elem_info = (geometry_object.SDO_ELEM_INFO.length : Int) ∧
    geometry.elem_info =
      (if 0 < geometry_object.SDO_ELEM_INFO.length then
        some (LoadGeometry_elem_info oci fresh geometry_object.SDO_ELEM_INFO
          (geometry_object.SDO_ELEM_INFO.length : Int))
      else none) ∧
    geometry.n_ordinates = (geometry_object.SDO_ORDINATES.length : Int) ∧
    geometry.ordinates =
      (if 0 < geometry_object.SDO_ORDINATES.length then
        some (LoadGeometry_ordinates oci fresh geometry_object.SDO_ORDINATES
          (geometry_object.SDO_ORDINATES.length : Int))
      else none) := by
  by_cases hnull : geometry_object_ind._atomic = OCI_IND_NULL
  · rw [LoadGeometry_null_of_null oci fresh geometry_object geometry_object_ind hnull] at h
    exact absurd h (by simp)
  · rw [LoadGeometry_of_not_null oci fresh geometry_object geometry_object_ind hnull] at h
    have hg := Option.some.inj h
    subst hg
    refine ⟨rfl, ?_, rfl, ?_⟩
    · simp [OCICollSize]
    · simp [OCICollSize]

/-- Reading back the cells of an array the decoder has filled. -/
theorem cells_of_filled {α : Type} (l : List α) (n : Nat) (hl : l.length = n) :
    cells (if 0 < n then some l else none) (n : Int) = some l := by
  by_cases hn : 0 < n
  · have h1 : ¬ ((n : Int) ≤ 0) := by omega
    simp [cells, hn, h1, hl]
  · have h0 : n = 0 := by omega
    subst h0
    have : l = [] := List.length_eq_zero.mp hl
    simp [cells, this]

end lemmas

/-! ## Basic facts about the printer -/

section printer_lemmas

variable {double : Type}

/-- Below level 1 nothing is printed, provided the division made on entry is defined. -/
theorem PrintGeometry_below_level_1 (geometry : geometry_struct double)
    (row_number print_level n_points : Int)
    (hd : c_div geometry.n_ordinates (Int.tdiv geometry.gtype 1000) = some n_points)
    (hl : print_level < 1) :
    PrintGeometry (some geometry) row_number print_level = some [] := by
  have h1 : ¬ (print_level ≥ 1) := by omega
  have h2 : ¬ (print_level ≥ 2) := by omega
  have hu : ¬ (print_level ≥ 1 ∧ gtype_name (Int.tmod geometry.gtype 1000) = none) :=
    fun hc => h1 hc.1
  simp only [PrintGeometry, hd, if_neg h1, if_neg h2, if_neg hu]

/-- The switch assigns a name to each of the kinds 1 to 7. -/
theorem gtype_name_of_named_kind (k : Int) (h1 : 1 ≤ k) (h7 : k ≤ 7) :
    gtype_name k ≠ none := by
  have hcases : k = 1 ∨ k = 2 ∨ k = 3 ∨ k = 4 ∨ k = 5 ∨ k = 6 ∨ k = 7 := by omega
  rcases hcases with h | h | h | h | h | h | h <;> subst h <;> decide

/-- The switch assigns no name to a kind outside 1 to 7. -/
theorem gtype_name_of_unnamed_kind (k : Int) (hk : k < 1 ∨ 7 < k) :
    gtype_name k = none := by
  have e1 : k ≠ 1 := by omega
  have e2 : k ≠ 2 := by omega
  have e3 : k ≠ 3 := by omega
  have e4 : k ≠ 4 := by omega
  have e5 : k ≠ 5 := by omega
  have e6 : k ≠ 6 := by omega
  have e7 : k ≠ 7 := by omega
  simp only [gtype_name, if_neg e1, if_neg e2, if_neg e3, if_neg e4, if_neg e5, if_neg e6,
    if_neg e7]

/-- From level 1 on `PrintGeometry` is undefined for a kind that the switch assigns no
name to: the summary reads the name. -/
theorem PrintGeometry_undefined_of_unnamed_kind (geometry : geometry_struct double)
    (row_number print_level : Int) (h1 : 1 ≤ print_level)
    (hname : gtype_name (Int.tmod geometry.gtype 1000) = none) :
    PrintGeometry (some geometry) row_number print_level = none := by
  have hu : print_level ≥ 1 ∧ gtype_name (Int.tmod geometry.gtype 1000) = none :=
    ⟨h1, hname⟩
  cases hd : c_div geometry.n_ordinates (Int.tdiv geometry.gtype 1000) with
  | none => simp only [PrintGeometry, hd]
  | some n_points => simp only [PrintGeometry, hd, if_pos hu]

/-- At level 1 exactly the summary block is printed, provided the division made on
entry is defined and the switch has assigned the name of the kind. -/
theorem PrintGeometry_at_level_1 (geometry : geometry_struct double)
    (row_number print_level n_points : Int)
    (hd : c_div geometry.n_ordinates (Int.tdiv geometry.gtype 1000) = some n_points)
    (hname : gtype_name (Int.tmod geometry.gtype 1000) ≠ none)
    (h1 : 1 ≤ print_level) (hl : print_level < 2) :
    PrintGeometry (some geometry) row_number print_level
      = some (PrintGeometry_summary geometry row_number (Int.tmod geometry.gtype 1000)
          (Int.tdiv geometry.gtype 1000) (Int.tdiv geometry.n_elem_info 3) n_points) := by
  have h1 : print_level ≥ 1 := h1
  have h2 : ¬ (print_level ≥ 2) := by omega
  have hu : ¬ (print_level ≥ 1 ∧ gtype_name (Int.tmod geometry.gtype 1000) = none) :=
    fun hc => hname hc.2
  simp only [PrintGeometry, hd, if_pos h1, if_neg h2, if_neg hu]

/-- From level 2 on the summary block and the detail block are printed, provided the
division made on entry is defined, the switch has assigned the name of the kind and
the two arrays hold the cells counted. -/
theorem PrintGeometry_from_level_2 (geometry : geometry_struct double)
    (row_number print_level n_points : Int) (elem_info : List Int)
    (ordinates : List double)
    (hd : c_div geometry.n_ordinates (Int.tdiv geometry.gtype 1000) = some n_points)
    (hname : gtype_name (Int.tmod geometry.gtype 1000) ≠ none)
    (he : cells geometry.elem_info geometry.n_elem_info = some elem_info)
    (ho : cells geometry.ordinates geometry.n_ordinates = some ordinates)
    (h2 : 2 ≤ print_level) :
    PrintGeometry (some geometry) row_number print_level
      = some (PrintGeometry_summary geometry row_number (Int.tmod geometry.gtype 1000)
            (Int.tdiv geometry.gtype 1000) (Int.tdiv geometry.n_elem_info 3) n_points
          ++ PrintGeometry_details geometry elem_info ordinates) := by
  have h1 : print_level ≥ 1 := by omega
  have h2 : print_level ≥ 2 := h2
  have hu : ¬ (print_level ≥ 1 ∧ gtype_name (Int.tmod geometry.gtype 1000) = none) :=
    fun hc => hname hc.2
  simp only [PrintGeometry, hd, he, ho, if_pos h1, if_pos h2, if_neg hu]

/-- Whatever `PrintGeometry` prints from level 1 on starts with the summary block. -/
theorem PrintGeometry_starts_with_summary (geometry : geometry_struct double)
    (row_number print_level : Int) (lines : List (printed double))
    (h : PrintGeometry (some geometry) row_number print_level = some lines)
    (h1 : 1 ≤ print_level) :
    ∃ n_points tail,
      c_div geometry.n_ordinates (Int.tdiv geometry.gtype 1000) = some n_points ∧
      lines = PrintGeometry_summary geometry row_number (Int.tmod geometry.gtype 1000)
          (Int.tdiv geometry.gtype 1000) (Int.tdiv geometry.n_elem_info 3) n_points
        ++ tail := by
  have hname : gtype_name (Int.tmod geometry.gtype 1000) ≠ none := by
    intro hnone
    rw [PrintGeometry_undefined_of_unnamed_kind geometry row_number print_level h1 hnone] at h
    exact absurd h (by simp)
  have hu : ¬ (print_level ≥ 1 ∧ gtype_name (Int.tmod geometry.gtype 1000) = none) :=
    fun hc => hname hc.2
  cases hd : c_div geometry.n_ordinates (Int.tdiv geometry.gtype 1000) with
  | none => simp [PrintGeometry, hd] at h
  | some n_points =>
    refine ⟨n_points, ?_⟩
    by_cases h2 : 2 ≤ print_level
    · cases he : cells geometry.elem_info geometry.n_elem_info with
      | none =>
        have h2' : print_level ≥ 2 := h2
        simp only [PrintGeometry, hd, he, if_pos h2', if_neg hu] at h
        exact absurd h (by simp)
      | some elem_info =>
        cases ho : cells geometry.ordinates geometry.n_ordinates with
        | none =>
          have h2' : print_level ≥ 2 := h2
          simp only [PrintGeometry, hd, he, ho, if_pos h2', if_neg hu] at h
          exact absurd h (by simp)
        | some ordinates =>
          rw [PrintGeometry_from_level_2 geometry row_number print_level n_points
            elem_info ordinates hd hname he ho h2] at h
          exact ⟨_, rfl, (Option.some.inj h).symm⟩
    · rw [PrintGeometry_at_level_1 geometry row_number print_level n_points hd hname h1
        (by omega)] at h
      exact ⟨[], rfl, by rw [List.append_nil]; exact (Option.some.inj h).symm⟩

theorem indexed_length {α β : Type} (line : Int → α → β) (l : List α) :
    (indexed line l).length = l.length := by
  simp [indexed, List.enum_length]

theorem indexed_line {α β : Type} (line : Int → α → β) (l : List α) (i : Nat) :
    (indexed line l)[i]? = (l[i]?).map (fun value => line ((i : Int) + 1) value) := by
  simp only [indexed, List.getElem?_map, List.getElem?_enum, Option.map_map]
  rfl

/-- The quotient `gtype / 1000` of `PrintGeometry`, in terms of the division that
rounds down. -/
theorem dim_of_gtype (gtype : Int) :
    Int.tdiv gtype 1000 = if 0 ≤ gtype then gtype / 1000 else -((-gtype) / 1000) := by
  by_cases h : 0 ≤ gtype
  · rw [if_pos h]
    exact Int.tdiv_eq_ediv h (by decide)
  · rw [if_neg h]
    have hneg : 0 ≤ -gtype := by omega
    have h1 := Int.neg_tdiv (-gtype) 1000
    rw [Int.neg_neg] at h1
    rw [h1, Int.tdiv_eq_ediv hneg (by decide)]

/-- The remainder `gtype % 1000` of `PrintGeometry` is what the quotient leaves. -/
theorem kind_of_gtype (gtype : Int) :
    Int.tmod gtype 1000 = gtype - 1000 * Int.tdiv gtype 1000 := by
  have := Int.tdiv_add_tmod gtype 1000
  omega

/-- The division made on entry of `PrintGeometry` is defined when the divisor is not 0
and the count is not negative. -/
theorem c_div_defined (n_ordinates dim : Int) (hdim : dim ≠ 0) (hn : 0 ≤ n_ordinates) :
    c_div n_ordinates dim = some (Int.tdiv n_ordinates dim) := by
  have hmin : n_ordinates ≠ INT_MIN := by
    intro h
    rw [h] at hn
    exact absurd hn (by decide)
  simp [c_div, hdim, hmin]

/-- With divisor 0 `PrintGeometry` is undefined at every level. -/
theorem PrintGeometry_undefined_of_dim_0 (geometry : geometry_struct double)
    (row_number print_level : Int) (hdim : Int.tdiv geometry.gtype 1000 = 0) :
    PrintGeometry (some geometry) row_number print_level = none := by
  simp [PrintGeometry, c_div, hdim]

/-- From level 2 on the level plays no part in what `PrintGeometry` does. -/
theorem PrintGeometry_level_2_on (geometry : geometry_struct double)
    (row_number print_level : Int) (h2 : 2 ≤ print_level) :
    PrintGeometry (some geometry) row_number print_level
      = PrintGeometry (some geometry) row_number 2 := by
  have h1 : print_level ≥ 1 := by omega
  have h2 : print_level ≥ 2 := h2
  have h1' : (2 : Int) ≥ 1 := by decide
  have h2' : (2 : Int) ≥ 2 := by decide
  by_cases hname : gtype_name (Int.tmod geometry.gtype 1000) = none
  · rw [PrintGeometry_undefined_of_unnamed_kind geometry row_number print_level h1 hname,
      PrintGeometry_undefined_of_unnamed_kind geometry row_number 2 h1' hname]
  · have hu : ¬ (print_level ≥ 1 ∧ gtype_name (Int.tmod geometry.gtype 1000) = none) :=
      fun hc => hname hc.2
    have hu' : ¬ ((2 : Int) ≥ 1 ∧ gtype_name (Int.tmod geometry.gtype 1000) = none) :=
      fun hc => hname hc.2
    simp only [PrintGeometry, if_pos h1, if_pos h2, if_pos h1', if_pos h2', if_neg hu,
      if_neg hu']

/-- The levels of `PrintGeometry` for a geometry of a kind that the switch names, with
a divisor other than 0, counts that are not negative and arrays that hold the cells
counted: nothing is printed at any level <= 0; what is printed at level 1 is the
beginning of what is printed at level 2; and any level >= 2 prints as level 2. -/
theorem PrintGeometry_levels_of_named_kind (geometry : geometry_struct double)
    (row_number : Int)
    (hdim : Int.tdiv geometry.gtype 1000 ≠ 0)
    (hk1 : 1 ≤ Int.tmod geometry.gtype 1000) (hk7 : Int.tmod geometry.gtype 1000 ≤ 7)
    (hn : 0 ≤ geometry.n_ordinates)
    (he : (cells geometry.elem_info geometry.n_elem_info).isSome)
    (ho : (cells geometry.ordinates geometry.n_ordinates).isSome) :
    (∀ print_level : Int, print_level ≤ 0 →
      PrintGeometry (some geometry) row_number print_level = some []) ∧
    (∃ summary details : List (printed double),
      PrintGeometry (some geometry) row_number 1 = some summary ∧
      PrintGeometry (some geometry) row_number 2 = some (summary ++ details)) ∧
    (∀ print_level : Int, 2 ≤ print_level →
      PrintGeometry (some geometry) row_number print_level
        = PrintGeometry (some geometry) row_number 2) := by
  have hd := c_div_defined geometry.n_ordinates (Int.tdiv geometry.gtype 1000) hdim hn
  have hname := gtype_name_of_named_kind (Int.tmod geometry.gtype 1000) hk1 hk7
  obtain ⟨elem_info, hes⟩ := Option.isSome_iff_exists.mp he
  obtain ⟨ordinates, hos⟩ := Option.isSome_iff_exists.mp ho
  refine ⟨?_, ?_, ?_⟩
  · intro print_level hlevel
    exact PrintGeometry_below_level_1 geometry row_number print_level _ hd (by omega)
  · exact ⟨_, _,
      PrintGeometry_at_level_1 geometry row_number 1 _ hd hname (by decide) (by decide),
      PrintGeometry_from_level_2 geometry row_number 2 _ elem_info ordinates hd hname hes hos
        (by decide)⟩
  · intro print_level hlevel
    exact PrintGeometry_level_2_on geometry row_number print_level hlevel

end printer_lemmas

/-! ## Basic facts about the read loops -/

section reader_lemmas

variable {OCINumber double : Type} [Zero double]

theorem each_row_in_turn_ending (oci : OCI OCINumber double)
    (fresh : Nat → malloc_contents double) (print_level : Int)
    (rows : List (SDO_GEOMETRY OCINumber × SDO_GEOMETRY_ind)) (rows_fetched : Int) :
    (each_row_in_turn oci fresh print_level rows rows_fetched).ending = ending.returned ∨
    (each_row_in_turn oci fresh print_level rows rows_fetched).ending = ending.undefined := by
  induction rows generalizing rows_fetched with
  | nil => exact Or.inl rfl
  | cons row rows ih =>
    cases hP : PrintGeometry (LoadGeometry oci (fresh (rows_fetched + 1).toNat) row.1 row.2)
        (rows_fetched + 1) print_level with
    | none =>
      simp only [each_row_in_turn, hP]
      exact Or.inr trivial
    | some lines =>
      simp only [each_row_in_turn, hP]
      exact ih (rows_fetched + 1)

theorem answers_by_row_cons
    (row : SDO_GEOMETRY OCINumber × SDO_GEOMETRY_ind)
    (rows : List (SDO_GEOMETRY OCINumber × SDO_GEOMETRY_ind)) :
    answers_by_row (row :: rows)
      = { status := OCI_SUCCESS, row := some row } :: answers_by_row rows := rfl

/-- Reading row by row from a database that holds `rows` is decoding and printing
each row in turn. -/
theorem read_geom_loop_each_row (oci : OCI OCINumber double)
    (fresh : Nat → malloc_contents double) (print_level : Int)
    (rows : List (SDO_GEOMETRY OCINumber × SDO_GEOMETRY_ind)) (rows_fetched : Int) :
    read_geom.ReadGeometries_loop oci fresh print_level (answers_by_row rows) rows_fetched
      = each_row_in_turn oci fresh print_level rows rows_fetched := by
  induction rows generalizing rows_fetched with
  | nil =>
    simp [answers_by_row, read_geom.ReadGeometries_loop, each_row_in_turn, OCI_NO_DATA,
      OCI_SUCCESS]
  | cons row rows ih =>
    have hs : ¬ (OCI_SUCCESS ≠ OCI_SUCCESS ∧ OCI_SUCCESS ≠ OCI_NO_DATA) := by decide
    have hn : ¬ (OCI_SUCCESS = OCI_NO_DATA) := by decide
    rw [answers_by_row_cons]
    cases hP : PrintGeometry (LoadGeometry oci (fresh (rows_fetched + 1).toNat) row.1 row.2)
        (rows_fetched + 1) print_level with
    | none =>
      simp only [read_geom.ReadGeometries_loop, each_row_in_turn, if_neg hs, if_neg hn, hP]
    | some lines =>
      simp only [read_geom.ReadGeometries_loop, each_row_in_turn, if_neg hs, if_neg hn, hP,
        ih (rows_fetched + 1)]

/-- The loop over a batch is decoding and printing each of its rows in turn. -/
theorem read_geom_array_batch_each_row (oci : OCI OCINumber double)
    (fresh : Nat → malloc_contents double) (print_level : Int)
    (rows : List (SDO_GEOMETRY OCINumber × SDO_GEOMETRY_ind)) (rows_fetched : Int) :
    read_geom_array.ReadGeometries_batch oci fresh print_level rows rows_fetched
      = ((each_row_in_turn oci fresh print_level rows rows_fetched).printed,
         (each_row_in_turn oci fresh print_level rows rows_fetched).rows_fetched,
         decide ((each_row_in_turn oci fresh print_level rows rows_fetched).ending
           = ending.returned)) := by
  induction rows generalizing rows_fetched with
  | nil => simp [read_geom_array.ReadGeometries_batch, each_row_in_turn]
  | cons row rows ih =>
    cases hP : PrintGeometry (LoadGeometry oci (fresh (rows_fetched + 1).toNat) row.1 row.2)
        (rows_fetched + 1) print_level with
    | none =>
      simp [read_geom_array.ReadGeometries_batch, each_row_in_turn, hP]
    | some lines =>
      simp only [read_geom_array.ReadGeometries_batch, each_row_in_turn, hP,
        ih (rows_fetched + 1)]

/-- Decoding and printing the rows of `first ++ second` in turn is doing so for
`first` and, unless that ran into undefined behaviour, going on with `second`. -/
theorem each_row_in_turn_append (oci : OCI OCINumber double)
    (fresh : Nat → malloc_contents double) (print_level : Int)
    (first second : List (SDO_GEOMETRY OCINumber × SDO_GEOMETRY_ind)) (rows_fetched : Int) :
    each_row_in_turn oci fresh print_level (first ++ second) rows_fetched
      = if (each_row_in_turn oci fresh print_level first rows_fetched).ending
            = ending.returned then
          { each_row_in_turn oci fresh print_level second
              (each_row_in_turn oci fresh print_level first rows_fetched).rows_fetched with
            printed := (each_row_in_turn oci fresh print_level first rows_fetched).printed
              ++ (each_row_in_turn oci fresh print_level second
                (each_row_in_turn oci fresh print_level first rows_fetched).rows_fetched).printed }
        else each_row_in_turn oci fresh print_level first rows_fetched := by
  induction first generalizing rows_fetched with
  | nil => simp [each_row_in_turn]
  | cons row rows ih =>
    cases hP : PrintGeometry (LoadGeometry oci (fresh (rows_fetched + 1).toNat) row.1 row.2)
        (rows_fetched + 1) print_level with
    | none =>
      simp [each_row_in_turn, hP]
    | some lines =>
      have ih' := ih (rows_fetched + 1)
      rw [List.cons_append]
      simp only [each_row_in_turn, hP]
      by_cases hE : (each_row_in_turn oci fresh print_level rows (rows_fetched + 1)).ending
          = ending.returned
      · rw [if_pos hE] at ih'
        rw [if_pos hE, ih']
        simp
      · rw [if_neg hE] at ih'
        rw [if_neg hE, ih']

/-- Reading batch by batch from a database that holds `rows` is decoding and printing
each row in turn. -/
theorem read_geom_array_loop_each_row (oci : OCI OCINumber double)
    (fresh : Nat → malloc_contents double) (print_level : Int) (array_size : Nat)
    (h : 0 < array_size) (fuel : Nat) :
    ∀ (rows : List (SDO_GEOMETRY OCINumber × SDO_GEOMETRY_ind))
      (rows_fetched nr_fetches : Int), rows.length < fuel →
      (read_geom_array.ReadGeometries_loop oci fresh print_level
          (answers_by_batch_upto array_size fuel rows) rows_fetched nr_fetches).printed
        = (each_row_in_turn oci fresh print_level rows rows_fetched).printed ∧
      (read_geom_array.ReadGeometries_loop oci fresh print_level
          (answers_by_batch_upto array_size fuel rows) rows_fetched nr_fetches).rows_fetched
        = (each_row_in_turn oci fresh print_level rows rows_fetched).rows_fetched ∧
      (read_geom_array.ReadGeometries_loop oci fresh print_level
          (answers_by_batch_upto array_size fuel rows) rows_fetched nr_fetches).ending
        = (each_row_in_turn oci fresh print_level rows rows_fetched).ending := by
  induction fuel with
  | zero =>
    intro rows rows_fetched nr_fetches hlt
    omega
  | succ fuel ih =>
    intro rows rows_fetched nr_fetches hlt
    have hs : ¬ (OCI_SUCCESS ≠ OCI_SUCCESS ∧ OCI_SUCCESS ≠ OCI_NO_DATA) := by decide
    have hsn : ¬ (OCI_SUCCESS = OCI_NO_DATA) := by decide
    have hnd : ¬ (OCI_NO_DATA ≠ OCI_SUCCESS ∧ OCI_NO_DATA ≠ OCI_NO_DATA) := by decide
    by_cases hlen : rows.length < array_size
    · simp only [answers_by_batch_upto, if_pos hlen, read_geom_array.ReadGeometries_loop,
        if_neg hnd, read_geom_array_batch_each_row]
      rcases each_row_in_turn_ending oci fresh print_level rows rows_fetched with hE | hE
      · simp [hE]
      · simp [hE]
    · simp only [answers_by_batch_upto, if_neg hlen, read_geom_array.ReadGeometries_loop,
        if_neg hs, if_neg hsn, read_geom_array_batch_each_row]
      have happ := each_row_in_turn_append oci fresh print_level (rows.take array_size)
        (rows.drop array_size) rows_fetched
      rw [List.take_append_drop] at happ
      rcases each_row_in_turn_ending oci fresh print_level (rows.take array_size)
          rows_fetched with hE | hE
      · have hdrop : (rows.drop array_size).length < fuel := by
          rw [List.length_drop]
          omega
        obtain ⟨i1, i2, i3⟩ := ih (rows.drop array_size)
          (each_row_in_turn oci fresh print_level (rows.take array_size)
            rows_fetched).rows_fetched (nr_fetches + 1) hdrop
        rw [happ, if_pos hE]
        simp [hE, i1, i2, i3]
      · have hne : ¬ ((each_row_in_turn oci fresh print_level (rows.take array_size)
            rows_fetched).ending = ending.returned) := by
          rw [hE]
          decide
        rw [happ, if_neg hne]
        simp [hE]

end reader_lemmas

/-! ## Decode path -/

section decode

variable {OCINumber double : Type} [Zero double]

/-- C1: when the whole-value indicator is not null, `LoadGeometry` returns a geometry
whose element count is the cardinality n of the wire element directory; for n = 0
the array is absent (no element), and otherwise it has exactly n cells, cell i
holding the unsigned conversion of source slot i, for every i below n: source order
is kept, nothing is dropped, duplicated or moved. -/
theorem LoadGeometry_elem_info_in_source_order (oci : OCI OCINumber double)
    (fresh : malloc_contents double) (geometry_object : SDO_GEOMETRY OCINumber)
    (geometry_object_ind : SDO_GEOMETRY_ind)
    (h : geometry_object_ind._atomic ≠ OCI_IND_NULL) :
    ∃ geometry, LoadGeometry oci fresh geometry_object geometry_object_ind = some geometry ∧
      geometry.n_elem_info = (geometry_object.SDO_ELEM_INFO.length : Int) ∧
      (geometry_object.SDO_ELEM_INFO.length = 0 → geometry.elem_info = none) ∧
      (0 < geometry_object.SDO_ELEM_INFO.length →
        ∃ elements, geometry.elem_info = some elements ∧
          elements.length = geometry_object.SDO_ELEM_INFO.length ∧
          ∀ (i : Nat) (hi : i < geometry_object.SDO_ELEM_INFO.length) (v : Int),
            oci.OCINumberToInt (geometry_object.SDO_ELEM_INFO.get ⟨i, hi⟩)
                OCI_NUMBER_UNSIGNED = some v →
              elements[i]? = some v) := by
  refine ⟨_, LoadGeometry_of_not_null oci fresh geometry_object geometry_object_ind h,
    rfl, ?_, ?_⟩
  · intro h0
    simp [OCICollSize, h0]
  · intro hpos
    have hn : (OCICollSize geometry_object.SDO_ELEM_INFO) > 0 := by
      simpa [OCICollSize] using hpos
    refine ⟨_, if_pos hn, ?_, ?_⟩
    · simp [LoadGeometry_elem_info_length, OCICollSize]
    · intro i hi v hv
      exact LoadGeometry_elem_info_cell oci fresh _ i hi v hv

/-- Witness of C1 on the line-string example: three slots 1, 1003, 1 in that order. -/
theorem LoadGeometry_elem_info_in_source_order_witness :
    example_linestring_ind._atomic ≠ OCI_IND_NULL ∧
    (∃ geometry, LoadGeometry oci_exact fresh_example example_linestring
        example_linestring_ind = some geometry ∧
      geometry.n_elem_info = (example_linestring.SDO_ELEM_INFO.length : Int) ∧
      (example_linestring.SDO_ELEM_INFO.length = 0 → geometry.elem_info = none) ∧
      (0 < example_linestring.SDO_ELEM_INFO.length →
        ∃ elements, geometry.elem_info = some elements ∧
          elements.length = example_linestring.SDO_ELEM_INFO.length ∧
          ∀ (i : Nat) (hi : i < example_linestring.SDO_ELEM_INFO.length) (v : Int),
            oci_exact.OCINumberToInt (example_linestring.SDO_ELEM_INFO.get ⟨i, hi⟩)
                OCI_NUMBER_UNSIGNED = some v →
              elements[i]? = some v)) ∧
    (LoadGeometry oci_exact fresh_example example_linestring
        example_linestring_ind).bind (fun geometry => geometry.elem_info)
      = some [1, 1003, 1] :=
  ⟨by decide,
   LoadGeometry_elem_info_in_source_order oci_exact fresh_example example_linestring
     example_linestring_ind (by decide),
   by rfl⟩

/-- C2: when the whole-value indicator is not null, `LoadGeometry` (one-at-a-time
loop) returns a geometry whose ordinate count is the cardinality n of the wire
ordinates collection; for n = 0 the array is absent (no ordinate), and otherwise it
has exactly n cells, cell i holding the conversion to double of source value i, for
every i below n, in source order. -/
theorem LoadGeometry_ordinates_in_source_order (oci : OCI OCINumber double)
    (fresh : malloc_contents double) (geometry_object : SDO_GEOMETRY OCINumber)
    (geometry_object_ind : SDO_GEOMETRY_ind)
    (h : geometry_object_ind._atomic ≠ OCI_IND_NULL) :
    ∃ geometry, LoadGeometry oci fresh geometry_object geometry_object_ind = some geometry ∧
      geometry.n_ordinates = (geometry_object.SDO_ORDINATES.length : Int) ∧
      (geometry_object.SDO_ORDINATES.length = 0 → geometry.ordinates = none) ∧
      (0 < geometry_object.SDO_ORDINATES.length →
        ∃ ordinates, geometry.ordinates = some ordinates ∧
          ordinates.length = geometry_object.SDO_ORDINATES.length ∧
          ∀ (i : Nat) (hi : i < geometry_object.SDO_ORDINATES.length) (v : double),
            oci.OCINumberToReal (geometry_object.SDO_ORDINATES.get ⟨i, hi⟩) = some v →
              ordinates[i]? = some v) := by
  refine ⟨_, LoadGeometry_of_not_null oci fresh geometry_object geometry_object_ind h,
    rfl, ?_, ?_⟩
  · intro h0
    simp [OCICollSize, h0]
  · intro hpos
    have hn : (OCICollSize geometry_object.SDO_ORDINATES) > 0 := by
      simpa [OCICollSize] using hpos
    refine ⟨_, if_pos hn, ?_, ?_⟩
    · simp [LoadGeometry_ordinates_length, OCICollSize]
    · intro i hi v hv
      exact LoadGeometry_ordinates_cell oci fresh _ i hi v hv

/-- Witness of C2, the line-string example of the specification: elements 1, 1003, 1,
ordinates 10.0, 20.0, 30.0, 40.0, gtype 2002 and srid 8307 decode to exactly these
ordinates in this order, and the summary printed for the decoded geometry reports
shape kind 2 (LINESTRING), 2 dimensions, 1 element and 2 points. -/
theorem LoadGeometry_ordinates_in_source_order_witness :
    example_linestring_ind._atomic ≠ OCI_IND_NULL ∧
    (∃ geometry, LoadGeometry oci_exact fresh_example example_linestring
        example_linestring_ind = some geometry ∧
      geometry.n_ordinates = (example_linestring.SDO_ORDINATES.length : Int) ∧
      (example_linestring.SDO_ORDINATES.length = 0 → geometry.ordinates = none) ∧
      (0 < example_linestring.SDO_ORDINATES.length →
        ∃ ordinates, geometry.ordinates = some ordinates ∧
          ordinates.length = example_linestring.SDO_ORDINATES.length ∧
          ∀ (i : Nat) (hi : i < example_linestring.SDO_ORDINATES.length) (v : ℚ),
            oci_exact.OCINumberToReal (example_linestring.SDO_ORDINATES.get ⟨i, hi⟩) = some v →
              ordinates[i]? = some v)) ∧
    LoadGeometry oci_exact fresh_example example_linestring example_linestring_ind
      = some { gtype := 2002, srid := 8307, point := none,
               n_elem_info := 3, elem_info := some [1, 1003, 1],
               n_ordinates := 4, ordinates := some [10.0, 20.0, 30.0, 40.0] } ∧
    PrintGeometry
        (LoadGeometry oci_exact fresh_example example_linestring example_linestring_ind) 1 1
      = some [printed.Row 1, printed.Geometry, printed.Type_ 2 (some "LINESTRING"),
              printed.Dimensions 2, printed.Spatial_reference_system 8307,
              printed.Elements 1, printed.Points 2] :=
  ⟨by decide,
   LoadGeometry_ordinates_in_source_order oci_exact fresh_example example_linestring
     example_linestring_ind (by decide),
   by rfl, by rfl⟩

/-- C3: when the whole-value indicator is `OCI_IND_NULL`, `LoadGeometry` returns `NULL`
(no geometry, not a structure of zeros), whatever the vendor library, the memory, the
wire fields and all the other indicators are. -/
theorem LoadGeometry_null_value (oci : OCI OCINumber double)
    (fresh : malloc_contents double) (geometry_object : SDO_GEOMETRY OCINumber)
    (geometry_object_ind : SDO_GEOMETRY_ind)
    (h : geometry_object_ind._atomic = OCI_IND_NULL) :
    LoadGeometry oci fresh geometry_object geometry_object_ind = none := by
  simp only [LoadGeometry, if_pos h]

/-- Witness of C3: the fields of the line-string example under the indicators of a null
column, and under indicators that are null at the top only, decode to no geometry. -/
theorem LoadGeometry_null_value_witness :
    example_null_ind._atomic = OCI_IND_NULL ∧
    LoadGeometry oci_exact fresh_example example_linestring example_null_ind = none ∧
    LoadGeometry oci_exact fresh_example example_linestring
      { example_linestring_ind with _atomic := OCI_IND_NULL } = none :=
  ⟨by decide,
   LoadGeometry_null_value oci_exact fresh_example example_linestring example_null_ind
     (by decide),
   LoadGeometry_null_value oci_exact fresh_example example_linestring
     { example_linestring_ind with _atomic := OCI_IND_NULL } (by decide)⟩

/-- C4: when the whole-value indicator is not null, `LoadGeometry` returns a geometry
(a null `gtype` or `srid` never makes it fail) in which `gtype` is 0 when the gtype
indicator is not `OCI_IND_NOTNULL`, in particular when it is `OCI_IND_NULL`, and the
signed conversion of the field otherwise; the same holds for `srid`; and neither
decoded field changes when the wire field and indicator of the other are replaced. -/
theorem LoadGeometry_gtype_srid (oci : OCI OCINumber double)
    (fresh : malloc_contents double) (geometry_object : SDO_GEOMETRY OCINumber)
    (geometry_object_ind : SDO_GEOMETRY_ind)
    (h : geometry_object_ind._atomic ≠ OCI_IND_NULL) :
    ∃ geometry, LoadGeometry oci fresh geometry_object geometry_object_ind = some geometry ∧
      (geometry_object_ind.SDO_GTYPE = OCI_IND_NULL → geometry.gtype = 0) ∧
      (geometry_object_ind.SDO_GTYPE ≠ OCI_IND_NOTNULL → geometry.gtype = 0) ∧
      (geometry_object_ind.SDO_GTYPE = OCI_IND_NOTNULL → ∀ v : Int,
        oci.OCINumberToInt geometry_object.SDO_GTYPE OCI_NUMBER_SIGNED = some v →
          geometry.gtype = v) ∧
      (geometry_object_ind.SDO_SRID = OCI_IND_NULL → geometry.srid = 0) ∧
      (geometry_object_ind.SDO_SRID ≠ OCI_IND_NOTNULL → geometry.srid = 0) ∧
      (geometry_object_ind.SDO_SRID = OCI_IND_NOTNULL → ∀ v : Int,
        oci.OCINumberToInt geometry_object.SDO_SRID OCI_NUMBER_SIGNED = some v →
          geometry.srid = v) ∧
      (∀ (number : OCINumber) (ind : OCIInd),
        ∃ other, LoadGeometry oci fresh { geometry_object with SDO_GTYPE := number }
            { geometry_object_ind with SDO_GTYPE := ind } = some other ∧
          other.srid = geometry.srid) ∧
      (∀ (number : OCINumber) (ind : OCIInd),
        ∃ other, LoadGeometry oci fresh { geometry_object with SDO_SRID := number }
            { geometry_object_ind with SDO_SRID := ind } = some other ∧
          other.gtype = geometry.gtype) := by
  refine ⟨_, LoadGeometry_of_not_null oci fresh geometry_object geometry_object_ind h,
    ?_, ?_, ?_, ?_, ?_, ?_, ?_, ?_⟩
  · intro hn
    have hne : geometry_object_ind.SDO_GTYPE ≠ OCI_IND_NOTNULL := by
      rw [hn]; decide
    simp [hne]
  · intro hne
    simp [hne]
  · intro hnn v hv
    simp [hnn, hv]
  · intro hn
    have hne : geometry_object_ind.SDO_SRID ≠ OCI_IND_NOTNULL := by
      rw [hn]; decide
    simp [hne]
  · intro hne
    simp [hne]
  · intro hnn v hv
    simp [hnn, hv]
  · intro number ind
    exact ⟨_, LoadGeometry_of_not_null oci fresh _ _ h, rfl⟩
  · intro number ind
    exact ⟨_, LoadGeometry_of_not_null oci fresh _ _ h, rfl⟩

/-- Witness of C4: the line-string example with its gtype marked null decodes to gtype 0
and keeps srid 8307; with both fields present it decodes to 2002 and 8307. -/
theorem LoadGeometry_gtype_srid_witness :
    example_linestring_ind._atomic ≠ OCI_IND_NULL ∧
    (∃ geometry, LoadGeometry oci_exact fresh_example example_linestring
        { example_linestring_ind with SDO_GTYPE := OCI_IND_NULL } = some geometry ∧
      geometry.gtype = 0 ∧ geometry.srid = 8307) ∧
    (∃ geometry, LoadGeometry oci_exact fresh_example example_linestring
        example_linestring_ind = some geometry ∧
      geometry.gtype = 2002 ∧ geometry.srid = 8307) := by
  refine ⟨by decide, ?_, ?_⟩
  · obtain ⟨geometry, hg, h1, -, -, -, -, h6, -, -⟩ :=
      LoadGeometry_gtype_srid oci_exact fresh_example example_linestring
        { example_linestring_ind with SDO_GTYPE := OCI_IND_NULL } (by decide)
    exact ⟨geometry, hg, h1 rfl, h6 rfl 8307 (by rfl)⟩
  · obtain ⟨geometry, hg, -, -, h3, -, -, h6, -, -⟩ :=
      LoadGeometry_gtype_srid oci_exact fresh_example example_linestring
        example_linestring_ind (by decide)
    exact ⟨geometry, hg, h3 rfl 2002 (by rfl), h6 rfl 8307 (by rfl)⟩

/-- C5: when the whole-value indicator is not null, `LoadGeometry` returns a geometry
whose point is absent when the group indicator of the point shortcut is not
`OCI_IND_NOTNULL` (in particular when it is `OCI_IND_NULL`), and present otherwise;
when present, each of x, y, z is 0 when its own indicator is not `OCI_IND_NOTNULL`
and the conversion to double of its own wire field otherwise. -/
theorem LoadGeometry_point (oci : OCI OCINumber double)
    (fresh : malloc_contents double) (geometry_object : SDO_GEOMETRY OCINumber)
    (geometry_object_ind : SDO_GEOMETRY_ind)
    (h : geometry_object_ind._atomic ≠ OCI_IND_NULL) :
    ∃ geometry, LoadGeometry oci fresh geometry_object geometry_object_ind = some geometry ∧
      (geometry_object_ind.SDO_POINT._atomic = OCI_IND_NULL → geometry.point = none) ∧
      (geometry_object_ind.SDO_POINT._atomic ≠ OCI_IND_NOTNULL → geometry.point = none) ∧
      (geometry_object_ind.SDO_POINT._atomic = OCI_IND_NOTNULL →
        ∃ point, geometry.point = some point ∧
          (geometry_object_ind.SDO_POINT.X ≠ OCI_IND_NOTNULL → point.x = 0) ∧
          (geometry_object_ind.SDO_POINT.X = OCI_IND_NOTNULL → ∀ v : double,
            oci.OCINumberToReal geometry_object.SDO_POINT.X = some v → point.x = v) ∧
          (geometry_object_ind.SDO_POINT.Y ≠ OCI_IND_NOTNULL → point.y = 0) ∧
          (geometry_object_ind.SDO_POINT.Y = OCI_IND_NOTNULL → ∀ v : double,
            oci.OCINumberToReal geometry_object.SDO_POINT.Y = some v → point.y = v) ∧
          (geometry_object_ind.SDO_POINT.Z ≠ OCI_IND_NOTNULL → point.z = 0) ∧
          (geometry_object_ind.SDO_POINT.Z = OCI_IND_NOTNULL → ∀ v : double,
            oci.OCINumberToReal geometry_object.SDO_POINT.Z = some v → point.z = v)) := by
  refine ⟨_, LoadGeometry_of_not_null oci fresh geometry_object geometry_object_ind h,
    ?_, ?_, ?_⟩
  · intro hn
    have hne : geometry_object_ind.SDO_POINT._atomic ≠ OCI_IND_NOTNULL := by
      rw [hn]; decide
    simp [hne]
  · intro hne
    simp [hne]
  · intro hnn
    refine ⟨_, if_pos hnn, ?_, ?_, ?_, ?_, ?_, ?_⟩
    · intro hne
      simp [hne]
    · intro hx v hv
      simp [hx, hv]
    · intro hne
      simp [hne]
    · intro hy v hv
      simp [hy, hv]
    · intro hne
      simp [hne]
    · intro hz v hv
      simp [hz, hv]

/-- Witness of C5, the point example of the specification: the point shortcut
(12.5, 45.0, null) with empty element directory and ordinates, gtype 3001 and srid
8307 decodes to the point (12.5, 45.0, 0) with no element and no ordinate, and the
summary printed reports shape kind 1 (POINT), 0 elements and 0 points. -/
theorem LoadGeometry_point_witness :
    example_point_ind._atomic ≠ OCI_IND_NULL ∧
    (∃ geometry, LoadGeometry oci_exact fresh_example example_point example_point_ind
        = some geometry ∧
      ∃ point, geometry.point = some point ∧
        point.x = 12.5 ∧ point.y = 45.0 ∧ point.z = 0) ∧
    LoadGeometry oci_exact fresh_example example_point example_point_ind
      = some { gtype := 3001, srid := 8307,
               point := some { x := 12.5, y := 45.0, z := 0 },
               n_elem_info := 0, elem_info := none,
               n_ordinates := 0, ordinates := none } ∧
    PrintGeometry (LoadGeometry oci_exact fresh_example example_point example_point_ind) 1 1
      = some [printed.Row 1, printed.Geometry, printed.Type_ 1 (some "POINT"),
              printed.Dimensions 3, printed.Spatial_reference_system 8307,
              printed.Elements 0, printed.Points 0] ∧
    (∃ geometry, LoadGeometry oci_exact fresh_example example_point
        { example_point_ind with SDO_POINT := example_linestring_ind.SDO_POINT }
        = some geometry ∧ geometry.point = none) := by
  refine ⟨by decide, ?_, by rfl, by rfl, ?_⟩
  · obtain ⟨geometry, hg, -, -, h3⟩ :=
      LoadGeometry_point oci_exact fresh_example example_point example_point_ind
        (by decide)
    obtain ⟨point, hp, -, hx, -, hy, hz, -⟩ := h3 rfl
    exact ⟨geometry, hg, point, hp, hx rfl _ rfl, hy rfl _ rfl, hz (by decide)⟩
  · obtain ⟨geometry, hg, h1, -, -⟩ :=
      LoadGeometry_point oci_exact fresh_example example_point
        { example_point_ind with SDO_POINT := example_linestring_ind.SDO_POINT }
        (by decide)
    exact ⟨geometry, hg, h1 rfl⟩

/-- C6, as the code has it: a failed conversion neither aborts the decode nor is
reported. `LoadGeometry` looks at no conversion status: for every wire value whose
whole-value indicator is not null it returns a geometry, whether conversions fail or
not; and when the conversions of gtype, srid, every element slot and every ordinate
that it performs all succeed, the geometry returned is the same whatever the memory
held before, that is, none of its cells is left unconverted. -/
theorem LoadGeometry_checks_no_conversion (oci : OCI OCINumber double)
    (fresh : malloc_contents double) (geometry_object : SDO_GEOMETRY OCINumber)
    (geometry_object_ind : SDO_GEOMETRY_ind)
    (h : geometry_object_ind._atomic ≠ OCI_IND_NULL) :
    ∃ geometry, LoadGeometry oci fresh geometry_object geometry_object_ind = some geometry ∧
      ((geometry_object_ind.SDO_GTYPE = OCI_IND_NOTNULL →
          (oci.OCINumberToInt geometry_object.SDO_GTYPE OCI_NUMBER_SIGNED).isSome) →
       (geometry_object_ind.SDO_SRID = OCI_IND_NOTNULL →
          (oci.OCINumberToInt geometry_object.SDO_SRID OCI_NUMBER_SIGNED).isSome) →
       (∀ number ∈ geometry_object.SDO_ELEM_INFO,
          (oci.OCINumberToInt number OCI_NUMBER_UNSIGNED).isSome) →
       (∀ number ∈ geometry_object.SDO_ORDINATES,
          (oci.OCINumberToReal number).isSome) →
       ∀ other : malloc_contents double,
         LoadGeometry oci other geometry_object geometry_object_ind = some geometry) := by
  refine ⟨_, LoadGeometry_of_not_null oci fresh geometry_object geometry_object_ind h, ?_⟩
  intro hg hs he ho other
  rw [LoadGeometry_of_not_null oci other geometry_object geometry_object_ind h,
    LoadGeometry_elem_info_written oci other fresh _ he,
    LoadGeometry_ordinates_written oci other fresh _ ho]
  have e1 : (if geometry_object_ind.SDO_GTYPE = OCI_IND_NOTNULL then
        (oci.OCINumberToInt geometry_object.SDO_GTYPE OCI_NUMBER_SIGNED).getD other.gtype
      else 0) = (if geometry_object_ind.SDO_GTYPE = OCI_IND_NOTNULL then
        (oci.OCINumberToInt geometry_object.SDO_GTYPE OCI_NUMBER_SIGNED).getD fresh.gtype
      else 0) := by
    by_cases hc : geometry_object_ind.SDO_GTYPE = OCI_IND_NOTNULL
    · obtain ⟨v, hv⟩ := Option.isSome_iff_exists.mp (hg hc)
      simp [hc, hv]
    · simp [hc]
  have e2 : (if geometry_object_ind.SDO_SRID = OCI_IND_NOTNULL then
        (oci.OCINumberToInt geometry_object.SDO_SRID OCI_NUMBER_SIGNED).getD other.srid
      else 0) = (if geometry_object_ind.SDO_SRID = OCI_IND_NOTNULL then
        (oci.OCINumberToInt geometry_object.SDO_SRID OCI_NUMBER_SIGNED).getD fresh.srid
      else 0) := by
    by_cases hc : geometry_object_ind.SDO_SRID = OCI_IND_NOTNULL
    · obtain ⟨v, hv⟩ := Option.isSome_iff_exists.mp (hs hc)
      simp [hc, hv]
    · simp [hc]
  rw [e1, e2]

/-- Witness of C6 as amended: on the line-string example every conversion succeeds,
and the decoded geometry is the same from any memory content. -/
theorem LoadGeometry_checks_no_conversion_witness :
    example_linestring_ind._atomic ≠ OCI_IND_NULL ∧
    ∃ geometry, LoadGeometry oci_exact fresh_example example_linestring
        example_linestring_ind = some geometry ∧
      ∀ other : malloc_contents ℚ,
        LoadGeometry oci_exact other example_linestring example_linestring_ind
          = some geometry := by
  refine ⟨by decide, ?_⟩
  obtain ⟨geometry, hg, hall⟩ :=
    LoadGeometry_checks_no_conversion oci_exact fresh_example example_linestring
      example_linestring_ind (by decide)
  refine ⟨geometry, hg, hall (fun _ => by rfl) (fun _ => by rfl) ?_ ?_⟩
  · intro number hn
    simp only [example_linestring, List.mem_cons, List.mem_singleton, List.not_mem_nil,
      or_false] at hn
    rcases hn with rfl | rfl | rfl <;> rfl
  · intro number hn
    rfl

/-- C6, as stated, fails: in this row the conversion of `SDO_GTYPE` is performed (its
indicator is `OCI_IND_NOTNULL`) and fails, yet `LoadGeometry` returns a geometry, and
the `gtype` of that geometry is what the memory held before the call. -/
theorem LoadGeometry_conversion_failure_unreported :
    example_linestring_ind.SDO_GTYPE = OCI_IND_NOTNULL ∧
    oci_exact.OCINumberToInt example_overflow.SDO_GTYPE OCI_NUMBER_SIGNED = none ∧
    LoadGeometry oci_exact fresh_example example_overflow example_linestring_ind
      = some { gtype := fresh_example.gtype, srid := 8307, point := none,
               n_elem_info := 3, elem_info := some [1, 1003, 1],
               n_ordinates := 4, ordinates := some [10.0, 20.0, 30.0, 40.0] } :=
  ⟨by rfl, by rfl, by rfl⟩

/-- C9, as the code has it: every geometry returned by `LoadGeometry` has the element
count and the ordinate count of the wire collections, with arrays of exactly these
lengths, no check being made; so it satisfies the cardinality invariant (element
count a multiple of 3 and, for a positive dimensionality gtype div 1000, ordinate count
a multiple of it) exactly when the wire cardinalities do. -/
theorem LoadGeometry_cardinalities (oci : OCI OCINumber double)
    (fresh : malloc_contents double) (geometry_object : SDO_GEOMETRY OCINumber)
    (geometry_object_ind : SDO_GEOMETRY_ind) (geometry : geometry_struct double)
    (h : LoadGeometry oci fresh geometry_object geometry_object_ind = some geometry) :
    geometry.n_elem_info = (geometry_object.SDO_ELEM_INFO.length : Int) ∧
    geometry.n_ordinates = (geometry_object.SDO_ORDINATES.length : Int) ∧
    (geometry.elem_info.getD []).length = geometry_object.SDO_ELEM_INFO.length ∧
    (geometry.ordinates.getD []).length = geometry_object.SDO_ORDINATES.length ∧
    ((geometry.n_elem_info % 3 = 0 ∧
        (0 < Int.tdiv geometry.gtype 1000 →
          geometry.n_ordinates % Int.tdiv geometry.gtype 1000 = 0)) ↔
      ((geometry_object.SDO_ELEM_INFO.length : Int) % 3 = 0 ∧
        (0 < Int.tdiv geometry.gtype 1000 →
          (geometry_object.SDO_ORDINATES.length : Int) % Int.tdiv geometry.gtype 1000 = 0))) := by
  obtain ⟨h1, h2, h3, h4⟩ :=
    LoadGeometry_collections oci fresh geometry_object geometry_object_ind geometry h
  refine ⟨h1, h3, ?_, ?_, ?_⟩
  · rw [h2]
    by_cases hn : 0 < geometry_object.SDO_ELEM_INFO.length
    · simp [hn, LoadGeometry_elem_info_length]
    · have h0 : geometry_object.SDO_ELEM_INFO.length = 0 := by omega
      simp [h0]
  · rw [h4]
    by_cases hn : 0 < geometry_object.SDO_ORDINATES.length
    · simp [hn, LoadGeometry_ordinates_length]
    · have h0 : geometry_object.SDO_ORDINATES.length = 0 := by omega
      simp [h0]
  · rw [h1, h3]

/-- Witness of C9 as amended: the line-string example decodes to counts 3 and 4, which
satisfy the invariant for dimensionality 2. -/
theorem LoadGeometry_cardinalities_witness :
    LoadGeometry oci_exact fresh_example example_linestring example_linestring_ind
      = some { gtype := 2002, srid := 8307, point := none,
               n_elem_info := 3, elem_info := some [1, 1003, 1],
               n_ordinates := 4, ordinates := some [10.0, 20.0, 30.0, 40.0] } ∧
    ((3 : Int) = (example_linestring.SDO_ELEM_INFO.length : Int) ∧
     (4 : Int) = (example_linestring.SDO_ORDINATES.length : Int)) :=
  ⟨by rfl,
   (LoadGeometry_cardinalities oci_exact fresh_example example_linestring
      example_linestring_ind _ (by rfl)).1,
   (LoadGeometry_cardinalities oci_exact fresh_example example_linestring
      example_linestring_ind _ (by rfl)).2.1⟩

/-- C9, as stated, fails: a wire value with four element-directory slots and three
ordinates under type code 2002 decodes to a geometry with element count 4 and ordinate
count 3, neither of which satisfies the cardinality invariant. -/
theorem LoadGeometry_cardinality_invariant_fails :
    ∃ geometry : geometry_struct ℚ,
      LoadGeometry oci_exact fresh_example example_mismatch example_linestring_ind
        = some geometry ∧
      geometry.n_elem_info % 3 ≠ 0 ∧
      0 < Int.tdiv geometry.gtype 1000 ∧
      geometry.n_ordinates % Int.tdiv geometry.gtype 1000 ≠ 0 :=
  ⟨{ gtype := 2002, srid := 8307, point := none,
     n_elem_info := 4, elem_info := some [1, 2, 1, 5],
     n_ordinates := 3, ordinates := some [10.0, 20.0, 30.0] },
   by rfl, by decide, by decide, by decide⟩

/-- C10, as the code has it: when the wire element-directory length is not a multiple of
3, or the wire ordinates length is not a multiple of the dimensionality, nothing is
reported to the caller and no fix is guessed: `LoadGeometry` returns a geometry as for
any other wire value, and both decoded sequences have exactly the wire lengths, neither
cut nor padded. -/
theorem LoadGeometry_mismatch_kept (oci : OCI OCINumber double)
    (fresh : malloc_contents double) (geometry_object : SDO_GEOMETRY OCINumber)
    (geometry_object_ind : SDO_GEOMETRY_ind)
    (h : geometry_object_ind._atomic ≠ OCI_IND_NULL) :
    ∃ geometry, LoadGeometry oci fresh geometry_object geometry_object_ind = some geometry ∧
      (((geometry_object.SDO_ELEM_INFO.length : Int) % 3 ≠ 0 ∨
        (geometry_object.SDO_ORDINATES.length : Int) % Int.tdiv geometry.gtype 1000 ≠ 0) →
        cells geometry.elem_info geometry.n_elem_info
          = some (LoadGeometry_elem_info oci fresh geometry_object.SDO_ELEM_INFO
              (geometry_object.SDO_ELEM_INFO.length : Int)) ∧
        (LoadGeometry_elem_info oci fresh geometry_object.SDO_ELEM_INFO
            (geometry_object.SDO_ELEM_INFO.length : Int)).length
          = geometry_object.SDO_ELEM_INFO.length ∧
        cells geometry.ordinates geometry.n_ordinates
          = some (LoadGeometry_ordinates oci fresh geometry_object.SDO_ORDINATES
              (geometry_object.SDO_ORDINATES.length : Int)) ∧
        (LoadGeometry_ordinates oci fresh geometry_object.SDO_ORDINATES
            (geometry_object.SDO_ORDINATES.length : Int)).length
          = geometry_object.SDO_ORDINATES.length) := by
  refine ⟨_, LoadGeometry_of_not_null oci fresh geometry_object geometry_object_ind h, ?_⟩
  intro _
  obtain ⟨h1, h2, h3, h4⟩ :=
    LoadGeometry_collections oci fresh geometry_object geometry_object_ind _
      (LoadGeometry_of_not_null oci fresh geometry_object geometry_object_ind h)
  have l1 := LoadGeometry_elem_info_length oci fresh geometry_object.SDO_ELEM_INFO
    (geometry_object.SDO_ELEM_INFO.length : Int)
  have l2 := LoadGeometry_ordinates_length oci fresh geometry_object.SDO_ORDINATES
    (geometry_object.SDO_ORDINATES.length : Int)
  simp only [Int.toNat_ofNat] at l1 l2
  refine ⟨?_, l1, ?_, l2⟩
  · rw [h1, h2]
    exact cells_of_filled _ _ l1
  · rw [h3, h4]
    exact cells_of_filled _ _ l2

/-- Witness of C10 as amended: the wire value with four element slots and three
ordinates under type code 2002 decodes to a geometry holding all four slots and all
three ordinates. -/
theorem LoadGeometry_mismatch_kept_witness :
    example_linestring_ind._atomic ≠ OCI_IND_NULL ∧
    ∃ geometry, LoadGeometry oci_exact fresh_example example_mismatch
        example_linestring_ind = some geometry ∧
      cells geometry.elem_info geometry.n_elem_info = some [1, 2, 1, 5] ∧
      cells geometry.ordinates geometry.n_ordinates = some [10.0, 20.0, 30.0] := by
  refine ⟨by decide, ?_⟩
  obtain ⟨geometry, hg, hkept⟩ :=
    LoadGeometry_mismatch_kept oci_exact fresh_example example_mismatch
      example_linestring_ind (by decide)
  obtain ⟨he, -, ho, -⟩ := hkept (Or.inl (by decide))
  exact ⟨geometry, hg, he.trans (by rfl), ho.trans (by rfl)⟩

/-- C10, as stated, fails: for a wire value whose element-directory length 4 is not a
multiple of 3 and whose ordinates length 3 is not a multiple of the dimensionality 2,
`LoadGeometry` returns a geometry like for any other row, and `PrintGeometry` prints the
usual summary for it, with the integer quotients 1 and 1 as counts; no mismatch is
reported anywhere. -/
theorem LoadGeometry_mismatch_unreported :
    (example_mismatch.SDO_ELEM_INFO.length : Int) % 3 ≠ 0 ∧
    (example_mismatch.SDO_ORDINATES.length : Int) % 2 ≠ 0 ∧
    LoadGeometry oci_exact fresh_example example_mismatch example_linestring_ind
      = some { gtype := 2002, srid := 8307, point := none,
               n_elem_info := 4, elem_info := some [1, 2, 1, 5],
               n_ordinates := 3, ordinates := some [10.0, 20.0, 30.0] } ∧
    PrintGeometry
        (LoadGeometry oci_exact fresh_example example_mismatch example_linestring_ind) 1 1
      = some [printed.Row 1, printed.Geometry, printed.Type_ 2 (some "LINESTRING"),
              printed.Dimensions 2, printed.Spatial_reference_system 8307,
              printed.Elements 1, printed.Points 1] :=
  ⟨by decide, by decide, by rfl, by rfl⟩

/-- C11: when the whole-value indicator is not null, `LoadGeometry` returns a geometry
whatever the indicators of the fields are; and when the indicators of gtype, srid and
the point shortcut are not `OCI_IND_NOTNULL` and the two collections are without
elements (as null collections are), the geometry returned has gtype 0, srid 0, no
point, no element and no ordinate. -/
theorem LoadGeometry_null_fields (oci : OCI OCINumber double)
    (fresh : malloc_contents double) (geometry_object : SDO_GEOMETRY OCINumber)
    (geometry_object_ind : SDO_GEOMETRY_ind)
    (h : geometry_object_ind._atomic ≠ OCI_IND_NULL) :
    (∃ geometry, LoadGeometry oci fresh geometry_object geometry_object_ind = some geometry) ∧
    (geometry_object_ind.SDO_GTYPE ≠ OCI_IND_NOTNULL →
     geometry_object_ind.SDO_SRID ≠ OCI_IND_NOTNULL →
     geometry_object_ind.SDO_POINT._atomic ≠ OCI_IND_NOTNULL →
     geometry_object.SDO_ELEM_INFO = [] →
     geometry_object.SDO_ORDINATES = [] →
     LoadGeometry oci fresh geometry_object geometry_object_ind
       = some { gtype := 0, srid := 0, point := none,
                n_elem_info := 0, elem_info := none,
                n_ordinates := 0, ordinates := none }) := by
  refine ⟨⟨_, LoadGeometry_of_not_null oci fresh geometry_object geometry_object_ind h⟩, ?_⟩
  intro hg hs hp he ho
  rw [LoadGeometry_of_not_null oci fresh geometry_object geometry_object_ind h]
  simp [hg, hs, hp, he, ho, OCICollSize]

/-- Witness of C11: a present value whose fields are all null decodes to the geometry
with gtype 0, srid 0, no point, no element and no ordinate. -/
theorem LoadGeometry_null_fields_witness :
    example_all_null_ind._atomic ≠ OCI_IND_NULL ∧
    LoadGeometry oci_exact fresh_example example_all_null example_all_null_ind
      = some { gtype := 0, srid := 0, point := none,
               n_elem_info := 0, elem_info := none,
               n_ordinates := 0, ordinates := none } :=
  ⟨by decide,
   (LoadGeometry_null_fields oci_exact fresh_example example_all_null example_all_null_ind
      (by decide)).2 (by decide) (by decide) (by decide) rfl rfl⟩

/-- C12, as the code has it: the decoder does not keep an empty collection apart from
a null one. `LoadGeometry` never reads the indicators of the two collections, so two
wire values that differ in these indicators only decode to the same result; and a
collection without elements, null or not, decodes to the count 0 and a `NULL`
array. -/
theorem LoadGeometry_collection_indicators_unread (oci : OCI OCINumber double)
    (fresh : malloc_contents double) (geometry_object : SDO_GEOMETRY OCINumber)
    (geometry_object_ind : SDO_GEOMETRY_ind) :
    (∀ elem_info_ind ordinates_ind : OCIInd,
      LoadGeometry oci fresh geometry_object
          { geometry_object_ind with SDO_ELEM_INFO := elem_info_ind,
                                     SDO_ORDINATES := ordinates_ind }
        = LoadGeometry oci fresh geometry_object geometry_object_ind) ∧
    (∀ geometry, LoadGeometry oci fresh geometry_object geometry_object_ind = some geometry →
      (geometry_object.SDO_ELEM_INFO = [] →
        geometry.n_elem_info = 0 ∧ geometry.elem_info = none) ∧
      (geometry_object.SDO_ORDINATES = [] →
        geometry.n_ordinates = 0 ∧ geometry.ordinates = none)) := by
  refine ⟨fun _ _ => rfl, ?_⟩
  intro geometry hg
  obtain ⟨h1, h2, h3, h4⟩ :=
    LoadGeometry_collections oci fresh geometry_object geometry_object_ind geometry hg
  refine ⟨?_, ?_⟩
  · intro he
    rw [h1, h2, he]
    simp
  · intro ho
    rw [h3, h4, ho]
    simp

/-- C12, as stated, fails: the point example with its empty element directory and
empty ordinates marked present, and the same fields with the element directory marked
null (respectively the ordinates), are different wire values that decode to the same
geometry. -/
theorem LoadGeometry_empty_and_null_decode_alike :
    example_point.SDO_ELEM_INFO = [] ∧
    example_point.SDO_ORDINATES = [] ∧
    example_point_ind.SDO_ELEM_INFO = OCI_IND_NOTNULL ∧
    example_point_ind.SDO_ORDINATES = OCI_IND_NOTNULL ∧
    example_point_ind ≠ { example_point_ind with SDO_ELEM_INFO := OCI_IND_NULL } ∧
    example_point_ind ≠ { example_point_ind with SDO_ORDINATES := OCI_IND_NULL } ∧
    LoadGeometry oci_exact fresh_example example_point
        { example_point_ind with SDO_ELEM_INFO := OCI_IND_NULL }
      = LoadGeometry oci_exact fresh_example example_point example_point_ind ∧
    LoadGeometry oci_exact fresh_example example_point
        { example_point_ind with SDO_ORDINATES := OCI_IND_NULL }
      = LoadGeometry oci_exact fresh_example example_point example_point_ind ∧
    LoadGeometry oci_exact fresh_example example_point example_point_ind
      = some example_point_geometry :=
  ⟨rfl, rfl, rfl, rfl, by decide, by decide, by rfl, by rfl, by rfl⟩

/-- C19: for a wire value (itself not null) whose point shortcut is not null and whose
element directory and ordinates are not empty, `LoadGeometry` returns a geometry with
the point present and both arrays present with the wire lengths; and each of gtype,
srid, point, elements and ordinates is the same in the decoding of any other wire
value that has the same wire field (and indicator) for it, whatever its other fields
are. -/
theorem LoadGeometry_point_and_arrays (oci : OCI OCINumber double)
    (fresh : malloc_contents double) (geometry_object : SDO_GEOMETRY OCINumber)
    (geometry_object_ind : SDO_GEOMETRY_ind)
    (h : geometry_object_ind._atomic ≠ OCI_IND_NULL)
    (hp : geometry_object_ind.SDO_POINT._atomic = OCI_IND_NOTNULL)
    (he : geometry_object.SDO_ELEM_INFO ≠ [])
    (ho : geometry_object.SDO_ORDINATES ≠ []) :
    ∃ geometry, LoadGeometry oci fresh geometry_object geometry_object_ind = some geometry ∧
      (∃ point, geometry.point = some point) ∧
      (∃ elements, geometry.elem_info = some elements ∧ elements ≠ [] ∧
        elements.length = geometry_object.SDO_ELEM_INFO.length) ∧
      (∃ ordinates, geometry.ordinates = some ordinates ∧ ordinates ≠ [] ∧
        ordinates.length = geometry_object.SDO_ORDINATES.length) ∧
      ∀ (other_object : SDO_GEOMETRY OCINumber) (other_ind : SDO_GEOMETRY_ind),
        other_ind._atomic ≠ OCI_IND_NULL →
        ∃ other, LoadGeometry oci fresh other_object other_ind = some other ∧
          (other_object.SDO_GTYPE = geometry_object.SDO_GTYPE →
            other_ind.SDO_GTYPE = geometry_object_ind.SDO_GTYPE →
            other.gtype = geometry.gtype) ∧
          (other_object.SDO_SRID = geometry_object.SDO_SRID →
            other_ind.SDO_SRID = geometry_object_ind.SDO_SRID →
            other.srid = geometry.srid) ∧
          (other_object.SDO_POINT = geometry_object.SDO_POINT →
            other_ind.SDO_POINT = geometry_object_ind.SDO_POINT →
            other.point = geometry.point) ∧
          (other_object.SDO_ELEM_INFO = geometry_object.SDO_ELEM_INFO →
            other.n_elem_info = geometry.n_elem_info ∧
            other.elem_info = geometry.elem_info) ∧
          (other_object.SDO_ORDINATES = geometry_object.SDO_ORDINATES →
            other.n_ordinates = geometry.n_ordinates ∧
            other.ordinates = geometry.ordinates) := by
  have hle : 0 < geometry_object.SDO_ELEM_INFO.length := List.length_pos.mpr he
  have hlo : 0 < geometry_object.SDO_ORDINATES.length := List.length_pos.mpr ho
  have hne : OCICollSize geometry_object.SDO_ELEM_INFO > 0 := by
    simpa [OCICollSize] using hle
  have hno : OCICollSize geometry_object.SDO_ORDINATES > 0 := by
    simpa [OCICollSize] using hlo
  refine ⟨_, LoadGeometry_of_not_null oci fresh geometry_object geometry_object_ind h,
    ⟨_, if_pos hp⟩, ⟨_, if_pos hne, ?_, ?_⟩, ⟨_, if_pos hno, ?_, ?_⟩, ?_⟩
  · intro hnil
    have hl := LoadGeometry_elem_info_length oci fresh geometry_object.SDO_ELEM_INFO
      (OCICollSize geometry_object.SDO_ELEM_INFO)
    rw [hnil] at hl
    simp only [OCICollSize, List.length_nil, Int.toNat_ofNat] at hl
    omega
  · simp [LoadGeometry_elem_info_length, OCICollSize]
  · intro hnil
    have hl := LoadGeometry_ordinates_length oci fresh geometry_object.SDO_ORDINATES
      (OCICollSize geometry_object.SDO_ORDINATES)
    rw [hnil] at hl
    simp only [OCICollSize, List.length_nil, Int.toNat_ofNat] at hl
    omega
  · simp [LoadGeometry_ordinates_length, OCICollSize]
  · intro other_object other_ind hother
    refine ⟨_, LoadGeometry_of_not_null oci fresh other_object other_ind hother,
      ?_, ?_, ?_, ?_, ?_⟩
    · intro h1 h2
      simp only [h1, h2]
    · intro h1 h2
      simp only [h1, h2]
    · intro h1 h2
      simp only [h1, h2]
    · intro h1
      simp only [h1, and_self]
    · intro h1
      simp only [h1, and_self]

/-- Witness of C19: the line string that also carries the point shortcut (12.5, 45.0,
null) decodes to a geometry with that point, the three element slots and the four
ordinates. -/
theorem LoadGeometry_point_and_arrays_witness :
    example_point_and_arrays_ind._atomic ≠ OCI_IND_NULL ∧
    example_point_and_arrays_ind.SDO_POINT._atomic = OCI_IND_NOTNULL ∧
    example_point_and_arrays.SDO_ELEM_INFO ≠ [] ∧
    example_point_and_arrays.SDO_ORDINATES ≠ [] ∧
    (∃ geometry, LoadGeometry oci_exact fresh_example example_point_and_arrays
        example_point_and_arrays_ind = some geometry ∧
      (∃ point, geometry.point = some point) ∧
      (∃ elements, geometry.elem_info = some elements ∧ elements ≠ [] ∧
        elements.length = 3) ∧
      (∃ ordinates, geometry.ordinates = some ordinates ∧ ordinates ≠ [] ∧
        ordinates.length = 4)) ∧
    LoadGeometry oci_exact fresh_example example_point_and_arrays
        example_point_and_arrays_ind
      = some { gtype := 2002, srid := 8307,
               point := some { x := 12.5, y := 45.0, z := 0 },
               n_elem_info := 3, elem_info := some [1, 1003, 1],
               n_ordinates := 4, ordinates := some [10.0, 20.0, 30.0, 40.0] } := by
  refine ⟨by decide, by decide, by decide, ?_, ?_, by rfl⟩
  · intro hnil
    exact absurd (congrArg List.length hnil) (by decide)
  · obtain ⟨geometry, hg, hpt, hel, hor, -⟩ :=
      LoadGeometry_point_and_arrays oci_exact fresh_example example_point_and_arrays
        example_point_and_arrays_ind (by decide) (by decide) (by decide)
        (fun hnil => absurd (congrArg List.length hnil) (by decide))
    exact ⟨geometry, hg, hpt, hel, hor⟩

end decode

/-! ## Encode path -/

/-- C7 at the failing input: storing the decoded point example into a target wire value
changes nothing in the target, so decoding the target afterwards gives what the target
held before (here a null value, hence no geometry) and not the geometry stored; with
the handles of `LoadGeometries`, which are `NULL`, there is no wire value at all after
the call. -/
theorem StoreGeometry_then_LoadGeometry_loses_geometry :
    StoreGeometry (some example_point_geometry) (some example_linestring)
        (some example_null_ind)
      = (some example_linestring, some example_null_ind) ∧
    LoadGeometry oci_exact fresh_example example_linestring example_null_ind = none ∧
    LoadGeometry oci_exact fresh_example example_linestring example_null_ind
      ≠ some example_point_geometry ∧
    StoreGeometry (some example_point_geometry) (none : Option (SDO_GEOMETRY ℚ)) none
      = (none, none) :=
  ⟨rfl, by rfl, by
    have h : LoadGeometry oci_exact fresh_example example_linestring example_null_ind
        = none := by rfl
    rw [h]
    exact fun hh => Option.noConfusion hh, rfl⟩

/-- C8 at the failing input: after `StoreGeometry` of the decoded point example the
target wire value is what it was before the call, whatever it was: here its gtype and
srid indicators are still null, its point shortcut is still null although the geometry
has a point, and its element directory still has three slots although the geometry has
none. -/
theorem StoreGeometry_stores_nothing :
    (∀ (geometry_obj : Option (SDO_GEOMETRY ℚ)) (geometry_ind : Option SDO_GEOMETRY_ind),
      StoreGeometry (some example_point_geometry) geometry_obj geometry_ind
        = (geometry_obj, geometry_ind)) ∧
    (StoreGeometry (some example_point_geometry) (some example_linestring)
        (some example_null_ind)).2.map (fun ind => ind.SDO_GTYPE)
      = some OCI_IND_BADNULL ∧
    (StoreGeometry (some example_point_geometry) (some example_linestring)
        (some example_null_ind)).2.map (fun ind => ind.SDO_POINT._atomic)
      = some OCI_IND_BADNULL ∧
    (StoreGeometry (some example_point_geometry) (some example_linestring)
        (some example_null_ind)).1.map (fun obj => obj.SDO_ELEM_INFO.length)
      = some 3 ∧
    example_point_geometry.n_elem_info = 0 ∧
    example_point_geometry.point.isSome = true :=
  ⟨fun _ _ => rfl, rfl, rfl, rfl, rfl, rfl⟩

/-! ## Printer -/

/-- C13 at the failing input: for the geometry decoded from a present value with a null
type code (gtype 0) the division `n_ordinates / dim` made on entry has divisor 0, so
`PrintGeometry` at level 1 is undefined and no summary is reported; for the
line-string example the summary reports row number, shape kind 2, dimensionality 2,
srid 8307, 1 element and 2 points, in that order. -/
theorem PrintGeometry_summary_undefined_for_gtype_0 :
    LoadGeometry oci_exact fresh_example example_all_null example_all_null_ind
      = some example_null_gtype_geometry ∧
    c_div example_null_gtype_geometry.n_ordinates
      (Int.tdiv example_null_gtype_geometry.gtype 1000) = none ∧
    PrintGeometry (some example_null_gtype_geometry) 1 1 = none ∧
    PrintGeometry (some example_linestring_geometry) 5 1
      = some [printed.Row 5, printed.Geometry, printed.Type_ 2 (some "LINESTRING"),
              printed.Dimensions 2, printed.Spatial_reference_system 8307,
              printed.Elements 1, printed.Points 2] :=
  ⟨by rfl, by decide, by rfl, by rfl⟩

/-- C15 at the failing input: for a geometry of shape kind 9 (type code 3009) no case of
the switch assigns `gtype_name`, which has no initializer, so the summary at level 1
passes a pointer that was never assigned to the `printf` call printing the type: the
call of `PrintGeometry` is undefined and no descriptive name is printed, although the
division made on entry is defined and level 0 prints nothing; and so it is for every
shape kind outside 1..7 and every level from 1 on. -/
theorem PrintGeometry_name_unassigned_for_kind_9 :
    Int.tmod example_kind_9_geometry.gtype 1000 = 9 ∧
    gtype_name 9 = none ∧
    c_div example_kind_9_geometry.n_ordinates
      (Int.tdiv example_kind_9_geometry.gtype 1000) = some 0 ∧
    PrintGeometry (some example_kind_9_geometry) 1 0 = some [] ∧
    PrintGeometry (some example_kind_9_geometry) 1 1 = none ∧
    (∀ k : Int, k < 1 ∨ 7 < k → gtype_name k = none) ∧
    (∀ (geometry : geometry_struct ℚ) (row_number print_level : Int),
      Int.tmod geometry.gtype 1000 < 1 ∨ 7 < Int.tmod geometry.gtype 1000 →
      1 ≤ print_level →
      PrintGeometry (some geometry) row_number print_level = none) := by
  refine ⟨by decide, by decide, by decide, by rfl, by rfl, ?_, ?_⟩
  · intro k hk
    exact gtype_name_of_unnamed_kind k hk
  · intro geometry row_number print_level hk hlevel
    exact PrintGeometry_undefined_of_unnamed_kind geometry row_number print_level hlevel
      (gtype_name_of_unnamed_kind _ hk)

/-- C17 at the failing input: for the geometry decoded from a present value with a null
type code (gtype 0), `PrintGeometry` at level 0 divides by 0 before it looks at the
level, so the call is undefined instead of printing nothing; for the line-string
example level 0 prints nothing. -/
theorem PrintGeometry_level_0_undefined_for_gtype_0 :
    LoadGeometry oci_exact fresh_example example_all_null example_all_null_ind
      = some example_null_gtype_geometry ∧
    Int.tdiv example_null_gtype_geometry.gtype 1000 = 0 ∧
    PrintGeometry (some example_null_gtype_geometry) 1 0 = none ∧
    PrintGeometry (some example_linestring_geometry) 1 0 = some [] :=
  ⟨by rfl, by decide, by rfl, by rfl⟩

/-- C18 at the failing input: for the geometry decoded from a present value with a null
type code (gtype 0), `PrintGeometry` at level 2 is undefined (division by 0 on entry)
and reports nothing; for the line-string example level 2 adds to the summary the raw
gtype and srid, then the three element slots and the four ordinates, each under its
index counted from 1, and for the point example it adds the point. -/
theorem PrintGeometry_details_undefined_for_gtype_0 :
    LoadGeometry oci_exact fresh_example example_all_null example_all_null_ind
      = some example_null_gtype_geometry ∧
    PrintGeometry (some example_null_gtype_geometry) 1 2 = none ∧
    PrintGeometry (some example_linestring_geometry) 1 2
      = some [printed.Row 1, printed.Geometry, printed.Type_ 2 (some "LINESTRING"),
              printed.Dimensions 2, printed.Spatial_reference_system 8307,
              printed.Elements 1, printed.Points 2,
              printed.Detailed_structure, printed.SDO_GTYPE 2002, printed.SDO_SRID 8307,
              printed.SDO_ELEM_INFO 3, printed.elem_info 1 1, printed.elem_info 2 1003,
              printed.elem_info 3 1,
              printed.SDO_ORDINATES 4, printed.ordinates 1 10.0, printed.ordinates 2 20.0,
              printed.ordinates 3 30.0, printed.ordinates 4 40.0] ∧
    PrintGeometry (some example_point_geometry) 1 2
      = some [printed.Row 1, printed.Geometry, printed.Type_ 1 (some "POINT"),
              printed.Dimensions 3, printed.Spatial_reference_system 8307,
              printed.Elements 0, printed.Points 0,
              printed.Detailed_structure, printed.SDO_GTYPE 3001, printed.SDO_SRID 8307,
              printed.SDO_POINT 12.5 45.0 0] :=
  ⟨by rfl, by rfl, by rfl, by rfl⟩

/-! ## Read loops -/

/-- C16 at the failing input: for a result set whose second row has a null geometry
column, `LoadGeometry` returns `NULL` for that row and both read loops hand it to
`PrintGeometry` without a check; `PrintGeometry` dereferences it, at every level. The
run of read_geom.c and the run of read_geom_array.c (array size 10) both end in
undefined behaviour at row 2, after the lines of row 1. -/
theorem ReadGeometries_prints_absent_geometry :
    LoadGeometry oci_exact fresh_example example_linestring example_null_ind = none ∧
    (∀ row_number print_level : Int,
      PrintGeometry (none : Option (geometry_struct ℚ)) row_number print_level = none) ∧
    read_geom.ReadGeometries oci_exact fresh_examples 1 (answers_by_row example_rows_with_null)
      = { printed := [printed.Row 1, printed.Geometry, printed.Type_ 1 (some "POINT"),
                      printed.Dimensions 3, printed.Spatial_reference_system 8307,
                      printed.Elements 0, printed.Points 0],
          rows_fetched := 2, ending := ending.undefined } ∧
    read_geom_array.ReadGeometries oci_exact fresh_examples 1
        (answers_by_batch 10 example_rows_with_null)
      = { printed := [printed.Row 1, printed.Geometry, printed.Type_ 1 (some "POINT"),
                      printed.Dimensions 3, printed.Spatial_reference_system 8307,
                      printed.Elements 0, printed.Points 0],
          rows_fetched := 2, nr_fetches := 1, ending := ending.undefined } :=
  ⟨by rfl, fun _ _ => rfl, by rfl, by rfl⟩

/-- C20: for every result set and every positive array size, the run of read_geom_array.c
on the batches of the result set prints the same calls, counts the same rows and ends
the same way as the run of read_geom.c on its rows, and both are the decoding and
printing of each row in turn: row k of the result set is decoded on its own by
`LoadGeometry` (in the memory `fresh k`, the same in both runs) and printed by
`PrintGeometry` under the number k, in the order of the result set. -/
theorem read_geom_array_reads_as_read_geom {OCINumber double : Type} [Zero double]
    (oci : OCI OCINumber double) (fresh : Nat → malloc_contents double)
    (print_level : Int) (rows : List (SDO_GEOMETRY OCINumber × SDO_GEOMETRY_ind))
    (array_size : Nat) (h : 0 < array_size) :
    read_geom.ReadGeometries oci fresh print_level (answers_by_row rows)
      = each_row_in_turn oci fresh print_level rows 0 ∧
    (read_geom_array.ReadGeometries oci fresh print_level
        (answers_by_batch array_size rows)).printed
      = (read_geom.ReadGeometries oci fresh print_level (answers_by_row rows)).printed ∧
    (read_geom_array.ReadGeometries oci fresh print_level
        (answers_by_batch array_size rows)).rows_fetched
      = (read_geom.ReadGeometries oci fresh print_level (answers_by_row rows)).rows_fetched ∧
    (read_geom_array.ReadGeometries oci fresh print_level
        (answers_by_batch array_size rows)).ending
      = (read_geom.ReadGeometries oci fresh print_level (answers_by_row rows)).ending := by
  have hrow := read_geom_loop_each_row oci fresh print_level rows 0
  obtain ⟨h1, h2, h3⟩ := read_geom_array_loop_each_row oci fresh print_level array_size h
    (rows.length + 1) rows 0 0 (Nat.lt_succ_self _)
  refine ⟨hrow, ?_, ?_, ?_⟩
  · simp only [read_geom_array.ReadGeometries, read_geom.ReadGeometries, answers_by_batch,
      h1, hrow]
  · simp only [read_geom_array.ReadGeometries, read_geom.ReadGeometries, answers_by_batch,
      h2, hrow]
  · simp only [read_geom_array.ReadGeometries, read_geom.ReadGeometries, answers_by_batch,
      h3, hrow]

/-- Witness of C20: three rows read two at a time come in two batches and are printed,
at level 1, as rows 1, 2 and 3 exactly as when read one at a time. -/
theorem read_geom_array_reads_as_read_geom_witness :
    0 < 2 ∧
    (read_geom_array.ReadGeometries oci_exact fresh_examples 1
        (answers_by_batch 2 example_rows)).printed
      = (read_geom.ReadGeometries oci_exact fresh_examples 1
          (answers_by_row example_rows)).printed ∧
    read_geom_array.ReadGeometries oci_exact fresh_examples 1
        (answers_by_batch 2 example_rows)
      = { printed := [printed.Row 1, printed.Geometry, printed.Type_ 2 (some "LINESTRING"),
                      printed.Dimensions 2, printed.Spatial_reference_system 8307,
                      printed.Elements 1, printed.Points 2,
                      printed.Row 2, printed.Geometry, printed.Type_ 1 (some "POINT"),
                      printed.Dimensions 3, printed.Spatial_reference_system 8307,
                      printed.Elements 0, printed.Points 0,
                      printed.Row 3, printed.Geometry, printed.Type_ 2 (some "LINESTRING"),
                      printed.Dimensions 2, printed.Spatial_reference_system 8307,
                      printed.Elements 1, printed.Points 1],
          rows_fetched := 3, nr_fetches := 2, ending := ending.returned } :=
  ⟨by decide,
   (read_geom_array_reads_as_read_geom oci_exact fresh_examples 1 example_rows 2
      (by decide)).2.1,
   by rfl⟩

/-! ## Printer: the division on entry and the levels -/

/-- C27: `PrintGeometry` computes `n_ordinates / (gtype / 1000)` on entry, before any
test of `print_level`. The divisor is not 0 exactly when gtype <= -1000 or
gtype >= 1000; with divisor 0 the call is undefined at every level, level 0 included;
with a divisor other than 0 the division is defined (but for the one quotient that
does not fit an `int`) and, for a count that is not negative, the call is defined at
every level <= 0, and at level 1 for the shape kinds 1..7; and a geometry decoded from
a null `SDO_GTYPE` has gtype 0, hence divisor 0. -/
theorem PrintGeometry_division_on_entry {OCINumber double : Type} [Zero double]
    (geometry : geometry_struct double) :
    (Int.tdiv geometry.gtype 1000 ≠ 0 ↔ (geometry.gtype ≤ -1000 ∨ 1000 ≤ geometry.gtype)) ∧
    (Int.tdiv geometry.gtype 1000 = 0 → ∀ row_number print_level : Int,
      PrintGeometry (some geometry) row_number print_level = none) ∧
    (Int.tdiv geometry.gtype 1000 ≠ 0 →
      c_div geometry.n_ordinates (Int.tdiv geometry.gtype 1000) = none →
      geometry.n_ordinates = INT_MIN ∧ Int.tdiv geometry.gtype 1000 = -1) ∧
    (Int.tdiv geometry.gtype 1000 ≠ 0 → 0 ≤ geometry.n_ordinates →
      ∀ row_number print_level : Int,
        print_level ≤ 0 ∨
          (print_level < 2 ∧
            1 ≤ Int.tmod geometry.gtype 1000 ∧ Int.tmod geometry.gtype 1000 ≤ 7) →
        ∃ lines, PrintGeometry (some geometry) row_number print_level = some lines) ∧
    (∀ (oci : OCI OCINumber double) (fresh : malloc_contents double)
        (geometry_object : SDO_GEOMETRY OCINumber) (geometry_object_ind : SDO_GEOMETRY_ind),
      geometry_object_ind._atomic ≠ OCI_IND_NULL →
      geometry_object_ind.SDO_GTYPE ≠ OCI_IND_NOTNULL →
      ∃ decoded, LoadGeometry oci fresh geometry_object geometry_object_ind = some decoded ∧
        decoded.gtype = 0 ∧ Int.tdiv decoded.gtype 1000 = 0 ∧
        ∀ row_number print_level : Int,
          PrintGeometry (some decoded) row_number print_level = none) := by
  refine ⟨?_, ?_, ?_, ?_, ?_⟩
  · rw [dim_of_gtype]
    split <;> omega
  · intro hdim row_number print_level
    exact PrintGeometry_undefined_of_dim_0 geometry row_number print_level hdim
  · intro hdim hnone
    simp only [c_div] at hnone
    by_cases hc : Int.tdiv geometry.gtype 1000 = 0 ∨
        (geometry.n_ordinates = INT_MIN ∧ Int.tdiv geometry.gtype 1000 = -1)
    · rcases hc with h0 | h1
      · exact absurd h0 hdim
      · exact h1
    · rw [if_neg hc] at hnone
      exact absurd hnone (by simp)
  · intro hdim hn row_number print_level hlevel
    have hd := c_div_defined geometry.n_ordinates (Int.tdiv geometry.gtype 1000) hdim hn
    by_cases h1 : print_level < 1
    · exact ⟨_, PrintGeometry_below_level_1 geometry row_number print_level _ hd h1⟩
    · rcases hlevel with h0 | ⟨h2, hk1, hk7⟩
      · omega
      · exact ⟨_, PrintGeometry_at_level_1 geometry row_number print_level _ hd
          (gtype_name_of_named_kind _ hk1 hk7) (by omega) h2⟩
  · intro oci fresh geometry_object geometry_object_ind hnull hgtype
    have hzero : (if geometry_object_ind.SDO_GTYPE = OCI_IND_NOTNULL then
        (oci.OCINumberToInt geometry_object.SDO_GTYPE OCI_NUMBER_SIGNED).getD fresh.gtype
      else 0) = 0 := if_neg hgtype
    refine ⟨_, LoadGeometry_of_not_null oci fresh geometry_object geometry_object_ind hnull,
      hzero, ?_, ?_⟩
    · simp only [hzero]
      decide
    · intro row_number print_level
      apply PrintGeometry_undefined_of_dim_0
      simp only [hzero]
      decide

/-- C28: the split of gtype made by `PrintGeometry` loses nothing under the truncating
division of C: (gtype / 1000) * 1000 + gtype % 1000 = gtype; for gtype >= 0 the shape
kind lies in 0..999; for gtype < 0 it is <= 0, so the switch selects none of the names
of the kinds 1..7; and the kind and the dimensionality that `PrintGeometry` prints from
level 1 on add up to gtype in this way. -/
theorem PrintGeometry_split_of_gtype {double : Type} (geometry : geometry_struct double) :
    Int.tdiv geometry.gtype 1000 * 1000 + Int.tmod geometry.gtype 1000 = geometry.gtype ∧
    (0 ≤ geometry.gtype →
      0 ≤ Int.tmod geometry.gtype 1000 ∧ Int.tmod geometry.gtype 1000 ≤ 999) ∧
    (geometry.gtype < 0 →
      Int.tmod geometry.gtype 1000 ≤ 0 ∧
      ¬ (1 ≤ Int.tmod geometry.gtype 1000 ∧ Int.tmod geometry.gtype 1000 ≤ 7) ∧
      gtype_name (Int.tmod geometry.gtype 1000) = none) ∧
    (∀ (row_number print_level : Int) (lines : List (printed double)),
      1 ≤ print_level →
      PrintGeometry (some geometry) row_number print_level = some lines →
      ∃ (kind dim : Int) (name : Option String),
        lines[2]? = some (printed.Type_ kind name) ∧
        lines[3]? = some (printed.Dimensions dim) ∧
        dim * 1000 + kind = geometry.gtype) := by
  have hk := kind_of_gtype geometry.gtype
  have hd := dim_of_gtype geometry.gtype
  refine ⟨by omega, ?_, ?_, ?_⟩
  · intro h0
    rw [if_pos h0] at hd
    omega
  · intro hneg
    have hnot : ¬ (0 ≤ geometry.gtype) := by omega
    rw [if_neg hnot] at hd
    have hle : Int.tmod geometry.gtype 1000 ≤ 0 := by omega
    refine ⟨hle, by omega, ?_⟩
    have e1 : Int.tmod geometry.gtype 1000 ≠ 1 := by omega
    have e2 : Int.tmod geometry.gtype 1000 ≠ 2 := by omega
    have e3 : Int.tmod geometry.gtype 1000 ≠ 3 := by omega
    have e4 : Int.tmod geometry.gtype 1000 ≠ 4 := by omega
    have e5 : Int.tmod geometry.gtype 1000 ≠ 5 := by omega
    have e6 : Int.tmod geometry.gtype 1000 ≠ 6 := by omega
    have e7 : Int.tmod geometry.gtype 1000 ≠ 7 := by omega
    simp only [gtype_name, if_neg e1, if_neg e2, if_neg e3, if_neg e4, if_neg e5, if_neg e6,
      if_neg e7]
  · intro row_number print_level lines hlevel hlines
    obtain ⟨n_points, tail, -, hsum⟩ :=
      PrintGeometry_starts_with_summary geometry row_number print_level lines hlines hlevel
    refine ⟨Int.tmod geometry.gtype 1000, Int.tdiv geometry.gtype 1000,
      gtype_name (Int.tmod geometry.gtype 1000), ?_, ?_, by omega⟩
    · rw [hsum]
      rfl
    · rw [hsum]
      rfl

/-- C29 at the failing input: the geometry of shape kind 9 (type code 3009) has
gtype / 1000 = 3, not 0, and prints nothing at level 0; but at level 1 and at level 2
the summary passes the never-assigned `gtype_name` to `printf`, so neither level has
a defined output of which the other could be the beginning. For the shape kinds 1..7,
with counts that are not negative and arrays that hold the cells counted, the levels
are as claimed: nothing at any level <= 0, the output of level 1 at the beginning of
the output of level 2, and every level >= 2 as level 2. -/
theorem PrintGeometry_levels_undefined_for_kind_9 :
    Int.tdiv example_kind_9_geometry.gtype 1000 ≠ 0 ∧
    Int.tmod example_kind_9_geometry.gtype 1000 = 9 ∧
    gtype_name 9 = none ∧
    PrintGeometry (some example_kind_9_geometry) 1 0 = some [] ∧
    PrintGeometry (some example_kind_9_geometry) 1 1 = none ∧
    PrintGeometry (some example_kind_9_geometry) 1 2 = none ∧
    (∀ (geometry : geometry_struct ℚ) (row_number : Int),
      Int.tdiv geometry.gtype 1000 ≠ 0 →
      1 ≤ Int.tmod geometry.gtype 1000 → Int.tmod geometry.gtype 1000 ≤ 7 →
      0 ≤ geometry.n_ordinates →
      (cells geometry.elem_info geometry.n_elem_info).isSome →
      (cells geometry.ordinates geometry.n_ordinates).isSome →
      (∀ print_level : Int, print_level ≤ 0 →
        PrintGeometry (some geometry) row_number print_level = some []) ∧
      (∃ summary details : List (printed ℚ),
        PrintGeometry (some geometry) row_number 1 = some summary ∧
        PrintGeometry (some geometry) row_number 2 = some (summary ++ details)) ∧
      (∀ print_level : Int, 2 ≤ print_level →
        PrintGeometry (some geometry) row_number print_level
          = PrintGeometry (some geometry) row_number 2)) ∧
    PrintGeometry (some example_linestring_geometry) 1 0 = some [] ∧
    PrintGeometry (some example_linestring_geometry) 1 (-3) = some [] ∧
    PrintGeometry (some example_linestring_geometry) 1 5
      = PrintGeometry (some example_linestring_geometry) 1 2 := by
  refine ⟨by decide, by decide, by decide, by rfl, by rfl, by rfl, ?_, by rfl, by rfl,
    by rfl⟩
  intro geometry row_number hdim hk1 hk7 hn he ho
  exact PrintGeometry_levels_of_named_kind geometry row_number hdim hk1 hk7 hn he ho

/-! ## Decode path: the two tests of indicators -/

/-- C30: `LoadGeometry` tests the indicator of the whole value against `OCI_IND_NULL`
and the indicator of every field against `OCI_IND_NOTNULL`. For every whole-value
indicator other than `OCI_IND_NULL` it returns a geometry; in it gtype, srid and the
point group are 0, 0 and absent for every indicator of theirs other than
`OCI_IND_NOTNULL`, `OCI_IND_BADNULL` included; and in a point that is present each of
x, y, z is 0 for every indicator of its own other than `OCI_IND_NOTNULL`. -/
theorem LoadGeometry_indicator_tests {OCINumber double : Type} [Zero double]
    (oci : OCI OCINumber double) (fresh : malloc_contents double)
    (geometry_object : SDO_GEOMETRY OCINumber) (geometry_object_ind : SDO_GEOMETRY_ind)
    (h : geometry_object_ind._atomic ≠ OCI_IND_NULL) :
    ∃ geometry, LoadGeometry oci fresh geometry_object geometry_object_ind = some geometry ∧
      (geometry_object_ind.SDO_GTYPE ≠ OCI_IND_NOTNULL → geometry.gtype = 0) ∧
      (geometry_object_ind.SDO_SRID ≠ OCI_IND_NOTNULL → geometry.srid = 0) ∧
      (geometry_object_ind.SDO_POINT._atomic ≠ OCI_IND_NOTNULL → geometry.point = none) ∧
      (∀ point, geometry.point = some point →
        geometry_object_ind.SDO_POINT._atomic = OCI_IND_NOTNULL ∧
        (geometry_object_ind.SDO_POINT.X ≠ OCI_IND_NOTNULL → point.x = 0) ∧
        (geometry_object_ind.SDO_POINT.Y ≠ OCI_IND_NOTNULL → point.y = 0) ∧
        (geometry_object_ind.SDO_POINT.Z ≠ OCI_IND_NOTNULL → point.z = 0)) ∧
      (OCI_IND_BADNULL ≠ OCI_IND_NOTNULL ∧ OCI_IND_BADNULL ≠ OCI_IND_NULL ∧
        OCI_IND_NULL ≠ OCI_IND_NOTNULL) := by
  refine ⟨_, LoadGeometry_of_not_null oci fresh geometry_object geometry_object_ind h,
    ?_, ?_, ?_, ?_, by decide⟩
  · intro hne
    simp [hne]
  · intro hne
    simp [hne]
  · intro hne
    simp [hne]
  · intro point hpoint
    by_cases hp : geometry_object_ind.SDO_POINT._atomic = OCI_IND_NOTNULL
    · simp only [if_pos hp] at hpoint
      have hpt := Option.some.inj hpoint
      subst hpt
      refine ⟨hp, ?_, ?_, ?_⟩
      · intro hne
        simp [hne]
      · intro hne
        simp [hne]
      · intro hne
        simp [hne]
    · simp only [if_neg hp] at hpoint
      exact absurd hpoint (by simp)

/-- Witness of C30: under indicators that are all `OCI_IND_BADNULL`, the one of the
whole value included, the fields of the line-string example decode to a geometry with
gtype 0, srid 0 and no point; and with the point group present and its X, Y, Z
indicators `OCI_IND_BADNULL` the point is (0, 0, 0). -/
theorem LoadGeometry_indicator_tests_witness :
    example_badnull_ind._atomic ≠ OCI_IND_NULL ∧
    LoadGeometry oci_exact fresh_example example_linestring example_badnull_ind
      = some { gtype := 0, srid := 0, point := none,
               n_elem_info := 3, elem_info := some [1, 1003, 1],
               n_ordinates := 4, ordinates := some [10.0, 20.0, 30.0, 40.0] } ∧
    (∃ geometry, LoadGeometry oci_exact fresh_example example_point
        { example_badnull_ind with
          SDO_POINT := { example_badnull_ind.SDO_POINT with _atomic := OCI_IND_NOTNULL } }
        = some geometry ∧
      geometry.gtype = 0 ∧ geometry.srid = 0 ∧
      geometry.point = some { x := 0, y := 0, z := 0 }) := by
  refine ⟨by decide, by rfl, ?_⟩
  obtain ⟨geometry, hg, hgtype, hsrid, -, -, -⟩ :=
    LoadGeometry_indicator_tests oci_exact fresh_example example_point
      { example_badnull_ind with
        SDO_POINT := { example_badnull_ind.SDO_POINT with _atomic := OCI_IND_NOTNULL } }
      (by decide)
  refine ⟨geometry, hg, hgtype (by decide), hsrid (by decide), ?_⟩
  have hg' : LoadGeometry oci_exact fresh_example example_point
      { example_badnull_ind with
        SDO_POINT := { example_badnull_ind.SDO_POINT with _atomic := OCI_IND_NOTNULL } }
      = some { gtype := 0, srid := 0, point := some { x := 0, y := 0, z := 0 },
               n_elem_info := 0, elem_info := none,
               n_ordinates := 0, ordinates := none } := by rfl
  rw [hg'] at hg
  rw [← Option.some.inj hg]

/-! ## Load path -/

/-- C21 at the failing input: for an input file of two records `ReadGeometryFromFile`
reads nothing and returns no value (its body is empty), so no geometry carries the
type, the dimensions and the coordinates of a line; `LoadGeometries` tests that
missing value in its loop condition, which is undefined, with `rows_loaded` still 0
instead of 2; and so it is for every input file. -/
theorem ReadGeometryFromFile_returns_nothing :
    @load_geom.ReadGeometryFromFile ℚ example_input_file
      = (none, example_input_file) ∧
    @load_geom.LoadGeometries ℚ example_input_file [OCI_SUCCESS, OCI_SUCCESS]
      = { rows_loaded := 0, ending := ending.undefined } ∧
    (∀ (input_file : List String) (answers : List Int),
      @load_geom.LoadGeometries ℚ input_file answers
        = { rows_loaded := 0, ending := ending.undefined }) := by
  refine ⟨rfl, by rfl, ?_⟩
  intro input_file answers
  cases answers <;> rfl

/-! ## Command lines -/

/-- C24 at the failing input: `main` of oci_sample_array.c has no test of `array_size`,
so with the argument 0 (or -5) it goes on to connect and calls `ReadCities` with
array size 0 (or -5); `main` of read_geom_array.c and of read_points_array.c stop with
the invalid-size message for such an argument, use 10 when the argument is omitted,
and call their read routine with a positive size only. -/
theorem oci_sample_array_main_passes_array_size_0 :
    oci_sample_array.main ["oci_sample_array", "scott", "tiger", "orcl", "0"]
      = main_outcome.reads 0 ∧
    oci_sample_array.main ["oci_sample_array", "scott", "tiger", "orcl", "-5"]
      = main_outcome.reads (-5) ∧
    oci_sample_array.main ["oci_sample_array", "scott", "tiger", "orcl"]
      = main_outcome.reads 10 ∧
    read_geom_array.main ["read_geom_array", "scott", "tiger", "orcl",
        "select geom from us_cities", "1", "0"]
      = main_outcome.invalid_array_size ∧
    read_geom_array.main ["read_geom_array", "scott", "tiger", "orcl",
        "select geom from us_cities", "1"]
      = main_outcome.reads 10 ∧
    read_points_array.main ["read_points_array", "scott", "tiger", "orcl", "us_cities",
        "location", "-5"]
      = main_outcome.invalid_array_size ∧
    read_points_array.main ["read_points_array", "scott", "tiger", "orcl", "us_cities",
        "location"]
      = main_outcome.reads 10 ∧
    (∀ (argv : List String) (array_size : Int),
      read_geom_array.main argv = main_outcome.reads array_size → 1 ≤ array_size) ∧
    (∀ (argv : List String) (array_size : Int),
      read_points_array.main argv = main_outcome.reads array_size → 1 ≤ array_size) := by
  refine ⟨by decide, by decide, by decide, by decide, by decide, by decide, by decide,
    ?_, ?_⟩
  · intro argv array_size hmain
    unfold read_geom_array.main at hmain
    by_cases husage : argv.length < 6 ∨ argv.length > 7
    · rw [if_pos husage] at hmain
      exact absurd hmain (by simp)
    · rw [if_neg husage] at hmain
      generalize atoi (argv.getD 5 "") = level at hmain
      generalize (if argv.length > 6 then atoi (argv.getD 6 "") else some 10) = given
        at hmain
      cases level with
      | none => exact absurd hmain (by simp)
      | some print_level =>
        cases given with
        | none => exact absurd hmain (by simp)
        | some size =>
          simp only at hmain
          by_cases hsize : size ≤ 0
          · rw [if_pos hsize] at hmain
            exact absurd hmain (by simp)
          · rw [if_neg hsize] at hmain
            have := main_outcome.reads.inj hmain
            omega
  · intro argv array_size hmain
    unfold read_points_array.main at hmain
    by_cases husage : argv.length < 6 ∨ argv.length > 7
    · rw [if_pos husage] at hmain
      exact absurd hmain (by simp)
    · rw [if_neg husage] at hmain
      generalize (if argv.length > 6 then atoi (argv.getD 6 "") else some 10) = given
        at hmain
      cases given with
      | none => exact absurd hmain (by simp)
      | some size =>
        simp only at hmain
        by_cases hsize : size ≤ 0
        · rw [if_pos hsize] at hmain
          exact absurd hmain (by simp)
        · rw [if_neg hsize] at hmain
          have := main_outcome.reads.inj hmain
          omega

/-! ## The collection array interface -/

/-- C25 at the failing input: `use_array_interface` is 0, so the one-at-a-time loop is
the default; but for the four ordinates of the line-string example the array-interface
branch, which leaves the same four ordinates as the loop, also makes four `printf`
calls (one for each ordinate) that the loop does not make; and so it does for every
collection whose elements it can address. -/
theorem LoadGeometry_array_interface_prints :
    use_array_interface = 0 ∧
    LoadGeometry_ordinates_array_interface oci_array_exact fresh_example
        example_linestring.SDO_ORDINATES 4
      = { printed := [0, 1, 2, 3], ordinates := some [10.0, 20.0, 30.0, 40.0] } ∧
    LoadGeometry_ordinates oci_exact fresh_example example_linestring.SDO_ORDINATES 4
      = [10.0, 20.0, 30.0, 40.0] ∧
    (∀ (vendor : OCI_array_interface ℚ ℚ) (fresh : malloc_contents ℚ)
        (SDO_ORDINATES : List ℚ) (n_ordinates : Int),
      vendor.OCICollGetElemArray SDO_ORDINATES = OCI_SUCCESS →
      (LoadGeometry_ordinates_array_interface vendor fresh SDO_ORDINATES
        n_ordinates).printed.length = n_ordinates.toNat) ∧
    (∀ (vendor : OCI_array_interface ℚ ℚ) (fresh : malloc_contents ℚ)
        (SDO_ORDINATES : List ℚ) (n_ordinates : Int),
      vendor.OCICollGetElemArray SDO_ORDINATES ≠ OCI_SUCCESS →
      (LoadGeometry_ordinates_array_interface vendor fresh SDO_ORDINATES
        n_ordinates).ordinates = none) := by
  refine ⟨rfl, by rfl, by rfl, ?_, ?_⟩
  · intro vendor fresh SDO_ORDINATES n_ordinates hstatus
    simp [LoadGeometry_ordinates_array_interface, hstatus]
  · intro vendor fresh SDO_ORDINATES n_ordinates hstatus
    simp [LoadGeometry_ordinates_array_interface, hstatus]

/-! ## Basic facts about the fetch loops -/

section fetch_lemmas

variable {OCINumber double : Type} [Zero double]

theorem each_row_in_turn_count (oci : OCI OCINumber double)
    (fresh : Nat → malloc_contents double) (print_level : Int)
    (rows : List (SDO_GEOMETRY OCINumber × SDO_GEOMETRY_ind)) (rows_fetched : Int)
    (h : (each_row_in_turn oci fresh print_level rows rows_fetched).ending
      = ending.returned) :
    (each_row_in_turn oci fresh print_level rows rows_fetched).rows_fetched
      = rows_fetched + rows.length := by
  induction rows generalizing rows_fetched with
  | nil => simp [each_row_in_turn]
  | cons row rows ih =>
    cases hP : PrintGeometry (LoadGeometry oci (fresh (rows_fetched + 1).toNat) row.1 row.2)
        (rows_fetched + 1) print_level with
    | none =>
      simp only [each_row_in_turn, hP] at h
      exact absurd h (by decide)
    | some lines =>
      simp only [each_row_in_turn, hP] at h
      simp only [each_row_in_turn, hP, ih (rows_fetched + 1) h, List.length_cons]
      push_cast
      omega

/-- The fetch loop of read_geom.c on answers `OCI_SUCCESS` with each of `rows`, then an
answer with another status: the rows are decoded and printed in turn, and the run
ends as the other status says, unless printing a row was undefined. -/
theorem read_geom_loop_statuses (oci : OCI OCINumber double)
    (fresh : Nat → malloc_contents double) (print_level : Int)
    (rows : List (SDO_GEOMETRY OCINumber × SDO_GEOMETRY_ind))
    (last : fetched OCINumber) (rest : List (fetched OCINumber)) (rows_fetched : Int)
    (hlast : last.status ≠ OCI_SUCCESS) :
    (read_geom.ReadGeometries_loop oci fresh print_level
        (rows.map (fun row => { status := OCI_SUCCESS, row := some row }) ++ last :: rest)
        rows_fetched).printed
      = (each_row_in_turn oci fresh print_level rows rows_fetched).printed ∧
    (read_geom.ReadGeometries_loop oci fresh print_level
        (rows.map (fun row => { status := OCI_SUCCESS, row := some row }) ++ last :: rest)
        rows_fetched).rows_fetched
      = (each_row_in_turn oci fresh print_level rows rows_fetched).rows_fetched ∧
    (read_geom.ReadGeometries_loop oci fresh print_level
        (rows.map (fun row => { status := OCI_SUCCESS, row := some row }) ++ last :: rest)
        rows_fetched).ending
      = (if (each_row_in_turn oci fresh print_level rows rows_fetched).ending
            = ending.returned then
          (if last.status = OCI_NO_DATA then ending.returned else ending.exit 1)
        else (each_row_in_turn oci fresh print_level rows rows_fetched).ending) := by
  induction rows generalizing rows_fetched with
  | nil =>
    by_cases hnd : last.status = OCI_NO_DATA
    · have herr : ¬ (last.status ≠ OCI_SUCCESS ∧ last.status ≠ OCI_NO_DATA) := by
        intro hc
        exact hc.2 hnd
      simp only [List.map_nil, List.nil_append, read_geom.ReadGeometries_loop,
        each_row_in_turn, if_neg herr, if_pos hnd]
      simp
    · have herr : last.status ≠ OCI_SUCCESS ∧ last.status ≠ OCI_NO_DATA := ⟨hlast, hnd⟩
      simp only [List.map_nil, List.nil_append, read_geom.ReadGeometries_loop,
        each_row_in_turn, if_pos herr, if_neg hnd]
      simp
  | cons row rows ih =>
    have hs : ¬ (OCI_SUCCESS ≠ OCI_SUCCESS ∧ OCI_SUCCESS ≠ OCI_NO_DATA) := by decide
    have hn : ¬ (OCI_SUCCESS = OCI_NO_DATA) := by decide
    obtain ⟨i1, i2, i3⟩ := ih (rows_fetched + 1)
    rw [List.map_cons, List.cons_append]
    cases hP : PrintGeometry (LoadGeometry oci (fresh (rows_fetched + 1).toNat) row.1 row.2)
        (rows_fetched + 1) print_level with
    | none =>
      simp [read_geom.ReadGeometries_loop, each_row_in_turn, if_neg hs, if_neg hn, hP]
    | some lines =>
      simp only [read_geom.ReadGeometries_loop, each_row_in_turn, if_neg hs, if_neg hn, hP,
        i1, i2, i3]
      exact ⟨trivial, trivial, trivial⟩

theorem display_batch_count {α : Type} (rows : List α) (rows_fetched : Int) :
    (array_fetch.display_batch rows rows_fetched).2 = rows_fetched + rows.length := by
  induction rows generalizing rows_fetched with
  | nil => simp [array_fetch.display_batch]
  | cons row rows ih =>
    simp only [array_fetch.display_batch, ih (rows_fetched + 1), List.length_cons]
    push_cast
    omega

/-- Line `i` of the display of a batch shows row `i` under the count reached. -/
theorem display_batch_line {α : Type} (rows : List α) (rows_fetched : Int) (i : Nat) :
    (array_fetch.display_batch rows rows_fetched).1[i]?
      = (rows[i]?).map (fun row => (rows_fetched + i + 1, row)) := by
  induction rows generalizing rows_fetched i with
  | nil => simp [array_fetch.display_batch]
  | cons row rows ih =>
    cases i with
    | zero => simp [array_fetch.display_batch]
    | succ i =>
      simp only [array_fetch.display_batch, List.getElem?_cons_succ, ih (rows_fetched + 1) i]
      congr 1
      funext r
      push_cast
      congr 1
      omega

theorem display_batch_append {α : Type} (first second : List α) (rows_fetched : Int) :
    (array_fetch.display_batch (first ++ second) rows_fetched).1
      = (array_fetch.display_batch first rows_fetched).1
        ++ (array_fetch.display_batch second (rows_fetched + first.length)).1 := by
  induction first generalizing rows_fetched with
  | nil => simp [array_fetch.display_batch]
  | cons row rows ih =>
    have hcount : rows_fetched + 1 + (rows.length : Int)
        = rows_fetched + ((rows.length + 1 : Nat) : Int) := by
      push_cast
      omega
    rw [List.cons_append]
    simp only [array_fetch.display_batch, ih (rows_fetched + 1), List.cons_append,
      List.length_cons, hcount]

/-- The do-while loop of `ReadPoints` and `ReadCities` on batches with `OCI_SUCCESS`
followed by a batch with `OCI_NO_DATA`: all their rows are displayed in order, the
counters hold the number of rows and of batches, and what follows is not looked at. -/
theorem array_fetch_loop_batches {α : Type} (first : List (fetched_array α))
    (last : fetched_array α) (rest : List (fetched_array α))
    (rows_fetched nr_fetches : Int)
    (hfirst : ∀ answer ∈ first, answer.status = OCI_SUCCESS)
    (hlast : last.status = OCI_NO_DATA) :
    (array_fetch.loop (first ++ last :: rest) rows_fetched nr_fetches).printed
      = (array_fetch.display_batch ((first.map (fun answer => answer.rows)).flatten
          ++ last.rows) rows_fetched).1 ∧
    (array_fetch.loop (first ++ last :: rest) rows_fetched nr_fetches).rows_fetched
      = rows_fetched + (((first.map (fun answer => answer.rows)).flatten
          ++ last.rows).length : Int) ∧
    (array_fetch.loop (first ++ last :: rest) rows_fetched nr_fetches).nr_fetches
      = nr_fetches + first.length + 1 ∧
    (array_fetch.loop (first ++ last :: rest) rows_fetched nr_fetches).ending
      = ending.returned := by
  induction first generalizing rows_fetched nr_fetches with
  | nil =>
    have herr : ¬ (last.status ≠ OCI_SUCCESS ∧ last.status ≠ OCI_NO_DATA) := by
      intro hc
      exact hc.2 hlast
    simp only [List.nil_append, List.map_nil, List.flatten_nil, array_fetch.loop,
      if_neg herr, if_pos hlast, display_batch_count, List.length_nil]
    exact ⟨trivial, trivial, by omega, trivial⟩
  | cons answer answers ih =>
    have hstatus : answer.status = OCI_SUCCESS := hfirst answer (List.mem_cons_self _ _)
    have herr : ¬ (answer.status ≠ OCI_SUCCESS ∧ answer.status ≠ OCI_NO_DATA) := by
      intro hc
      exact hc.1 hstatus
    have hnd : ¬ (answer.status = OCI_NO_DATA) := by
      rw [hstatus]
      decide
    obtain ⟨i1, i2, i3, i4⟩ := ih (rows_fetched + answer.rows.length) (nr_fetches + 1)
      (fun a ha => hfirst a (List.mem_cons_of_mem _ ha))
    rw [List.cons_append]
    simp only [array_fetch.loop, if_neg herr, if_neg hnd, display_batch_count, i1, i2, i3, i4,
      List.map_cons, List.flatten_cons, List.append_assoc, List.length_append,
      List.length_cons]
    refine ⟨?_, ?_, ?_, trivial⟩
    · rw [display_batch_append answer.rows]
    · push_cast
      omega
    · push_cast
      omega

/-- The do-while loop of read_geom_array.c on batches with `OCI_SUCCESS` followed by a
batch with `OCI_NO_DATA`: all their rows are decoded and printed in turn, and what
follows is not looked at. -/
theorem read_geom_array_loop_batches (oci : OCI OCINumber double)
    (fresh : Nat → malloc_contents double) (print_level : Int)
    (first : List (fetched_batch OCINumber)) (last : fetched_batch OCINumber)
    (rest : List (fetched_batch OCINumber)) (rows_fetched nr_fetches : Int)
    (hfirst : ∀ answer ∈ first, answer.status = OCI_SUCCESS)
    (hlast : last.status = OCI_NO_DATA) :
    (read_geom_array.ReadGeometries_loop oci fresh print_level (first ++ last :: rest)
        rows_fetched nr_fetches).printed
      = (each_row_in_turn oci fresh print_level
          ((first.map (fun answer => answer.rows)).flatten ++ last.rows)
          rows_fetched).printed ∧
    (read_geom_array.ReadGeometries_loop oci fresh print_level (first ++ last :: rest)
        rows_fetched nr_fetches).rows_fetched
      = (each_row_in_turn oci fresh print_level
          ((first.map (fun answer => answer.rows)).flatten ++ last.rows)
          rows_fetched).rows_fetched ∧
    (read_geom_array.ReadGeometries_loop oci fresh print_level (first ++ last :: rest)
        rows_fetched nr_fetches).ending
      = (each_row_in_turn oci fresh print_level
          ((first.map (fun answer => answer.rows)).flatten ++ last.rows)
          rows_fetched).ending ∧
    ((each_row_in_turn oci fresh print_level
          ((first.map (fun answer => answer.rows)).flatten ++ last.rows)
          rows_fetched).ending = ending.returned →
      (read_geom_array.ReadGeometries_loop oci fresh print_level (first ++ last :: rest)
        rows_fetched nr_fetches).nr_fetches = nr_fetches + first.length + 1) := by
  induction first generalizing rows_fetched nr_fetches with
  | nil =>
    have herr : ¬ (last.status ≠ OCI_SUCCESS ∧ last.status ≠ OCI_NO_DATA) := by
      intro hc
      exact hc.2 hlast
    simp only [List.nil_append, List.map_nil, List.flatten_nil,
      read_geom_array.ReadGeometries_loop, if_neg herr, if_pos hlast,
      read_geom_array_batch_each_row, List.length_nil]
    rcases each_row_in_turn_ending oci fresh print_level last.rows rows_fetched with hE | hE
    · simp [hE]
    · simp [hE]
  | cons answer answers ih =>
    have hstatus : answer.status = OCI_SUCCESS := hfirst answer (List.mem_cons_self _ _)
    have herr : ¬ (answer.status ≠ OCI_SUCCESS ∧ answer.status ≠ OCI_NO_DATA) := by
      intro hc
      exact hc.1 hstatus
    have hnd : ¬ (answer.status = OCI_NO_DATA) := by
      rw [hstatus]
      decide
    have happ := each_row_in_turn_append oci fresh print_level answer.rows
      ((answers.map (fun answer => answer.rows)).flatten ++ last.rows) rows_fetched
    rw [List.cons_append]
    simp only [read_geom_array.ReadGeometries_loop, if_neg herr, if_neg hnd,
      read_geom_array_batch_each_row, List.map_cons, List.flatten_cons, List.append_assoc,
      List.length_cons]
    rcases each_row_in_turn_ending oci fresh print_level answer.rows rows_fetched with hE | hE
    · obtain ⟨i1, i2, i3, i4⟩ := ih
        (each_row_in_turn oci fresh print_level answer.rows rows_fetched).rows_fetched
        (nr_fetches + 1) (fun a ha => hfirst a (List.mem_cons_of_mem _ ha))
      rw [happ, if_pos hE]
      simp only [hE, decide_True, if_false, Bool.true_eq_false, i1, i2, i3, true_and]
      intro hret
      rw [i4 hret]
      push_cast
      omega
    · have hne : ¬ ((each_row_in_turn oci fresh print_level answer.rows
          rows_fetched).ending = ending.returned) := by
        rw [hE]
        decide
      rw [happ, if_neg hne]
      simp [hE]

/-- Nothing that follows a batch with `OCI_NO_DATA` is asked for by the loop of
`ReadPoints` and `ReadCities`. -/
theorem array_fetch_loop_stops {α : Type} (first : List (fetched_array α))
    (last : fetched_array α) (rest : List (fetched_array α))
    (rows_fetched nr_fetches : Int) (hlast : last.status = OCI_NO_DATA) :
    array_fetch.loop (first ++ last :: rest) rows_fetched nr_fetches
      = array_fetch.loop (first ++ [last]) rows_fetched nr_fetches := by
  induction first generalizing rows_fetched nr_fetches with
  | nil =>
    have herr : ¬ (last.status ≠ OCI_SUCCESS ∧ last.status ≠ OCI_NO_DATA) := by
      intro hc
      exact hc.2 hlast
    simp only [List.nil_append, array_fetch.loop, if_neg herr, if_pos hlast]
  | cons answer answers ih =>
    rw [List.cons_append, List.cons_append]
    simp only [array_fetch.loop, ih]

/-- Nothing that follows a batch with `OCI_NO_DATA` is asked for by the loop of
read_geom_array.c. -/
theorem read_geom_array_loop_stops (oci : OCI OCINumber double)
    (fresh : Nat → malloc_contents double) (print_level : Int)
    (first : List (fetched_batch OCINumber)) (last : fetched_batch OCINumber)
    (rest : List (fetched_batch OCINumber)) (rows_fetched nr_fetches : Int)
    (hlast : last.status = OCI_NO_DATA) :
    read_geom_array.ReadGeometries_loop oci fresh print_level (first ++ last :: rest)
        rows_fetched nr_fetches
      = read_geom_array.ReadGeometries_loop oci fresh print_level (first ++ [last])
        rows_fetched nr_fetches := by
  induction first generalizing rows_fetched nr_fetches with
  | nil =>
    have herr : ¬ (last.status ≠ OCI_SUCCESS ∧ last.status ≠ OCI_NO_DATA) := by
      intro hc
      exact hc.2 hlast
    simp only [List.nil_append, read_geom_array.ReadGeometries_loop, if_neg herr,
      if_pos hlast]
  | cons answer answers ih =>
    rw [List.cons_append, List.cons_append]
    simp only [read_geom_array.ReadGeometries_loop, ih]

/-- The rows of the batches, counted: the sum of the batch sizes. -/
theorem batches_length {α β : Type} (rows : β → List α) (first : List β) (last : β) :
    ((first.map rows).flatten ++ rows last).length
      = ((first ++ [last]).map (fun answer => (rows answer).length)).sum := by
  induction first with
  | nil => simp
  | cons answer answers ih =>
    simp only [List.map_cons, List.flatten_cons, List.append_assoc, List.length_append,
      List.cons_append, List.sum_cons] at ih ⊢
    omega

/-- The fetch loop of select_pois.c on answers with `OCI_SUCCESS` followed by an answer
with another status: one line per row, in order, under the count reached, with the
placeholder where the indicator of the phone number is `OCI_IND_NULL`. -/
theorem ReadPois_loop_lines (rows : List select_pois.poi_fetched)
    (last : select_pois.poi_fetched) (rest : List select_pois.poi_fetched)
    (rows_fetched : Int) (hrows : ∀ answer ∈ rows, answer.status = OCI_SUCCESS)
    (hlast : last.status ≠ OCI_SUCCESS) (i : Nat) :
    (select_pois.ReadPois_loop (rows ++ last :: rest) rows_fetched).printed[i]?
      = (rows[i]?).map (fun answer =>
          { rows_fetched := rows_fetched + i + 1, id := answer.id,
            poi_name := answer.poi_name,
            phone_number := if answer.phone_number_ind = OCI_IND_NULL then "NO TELEPHONE"
              else answer.phone_number }) := by
  induction rows generalizing rows_fetched i with
  | nil =>
    by_cases hnd : last.status = OCI_NO_DATA
    · have herr : ¬ (last.status ≠ OCI_SUCCESS ∧ last.status ≠ OCI_NO_DATA) := by
        intro hc
        exact hc.2 hnd
      simp only [List.nil_append, select_pois.ReadPois_loop, if_neg herr, if_pos hnd]
      simp
    · have herr : last.status ≠ OCI_SUCCESS ∧ last.status ≠ OCI_NO_DATA := ⟨hlast, hnd⟩
      simp only [List.nil_append, select_pois.ReadPois_loop, if_pos herr]
      simp
  | cons answer answers ih =>
    have hstatus : answer.status = OCI_SUCCESS := hrows answer (List.mem_cons_self _ _)
    have herr : ¬ (answer.status ≠ OCI_SUCCESS ∧ answer.status ≠ OCI_NO_DATA) := by
      intro hc
      exact hc.1 hstatus
    have hnd : ¬ (answer.status = OCI_NO_DATA) := by
      rw [hstatus]
      decide
    rw [List.cons_append]
    simp only [select_pois.ReadPois_loop, if_neg herr, if_neg hnd]
    cases i with
    | zero => simp
    | succ i =>
      simp only [List.getElem?_cons_succ,
        ih (rows_fetched + 1) (fun a ha => hrows a (List.mem_cons_of_mem _ ha)) i]
      congr 1
      funext r
      congr 1
      push_cast
      omega

/-- Every geometry the decoder returns has counts that are not negative and arrays
that hold the cells counted. -/
theorem LoadGeometry_well_formed (oci : OCI OCINumber double)
    (fresh : malloc_contents double) (geometry_object : SDO_GEOMETRY OCINumber)
    (geometry_object_ind : SDO_GEOMETRY_ind) (geometry : geometry_struct double)
    (h : LoadGeometry oci fresh geometry_object geometry_object_ind = some geometry) :
    0 ≤ geometry.n_elem_info ∧ 0 ≤ geometry.n_ordinates ∧
    (cells geometry.elem_info geometry.n_elem_info).isSome ∧
    (cells geometry.ordinates geometry.n_ordinates).isSome := by
  obtain ⟨h1, h2, h3, h4⟩ := LoadGeometry_collections oci fresh geometry_object
    geometry_object_ind geometry h
  rw [h1, h2, h3, h4]
  refine ⟨by omega, by omega, ?_, ?_⟩
  · rw [cells_of_filled _ _ (by rw [LoadGeometry_elem_info_length]; simp)]
    rfl
  · rw [cells_of_filled _ _ (by rw [LoadGeometry_ordinates_length]; simp)]
    rfl

end fetch_lemmas

/-! ## Fetch loops: end of data, errors and batches -/

/-- C23: in the fetch loop of read_geom.c, on statuses `OCI_SUCCESS` (one per row of
`rows`) followed by a first other status `last`, whatever follows: the rows with
`OCI_SUCCESS` are decoded and printed one by one and in turn, and nothing is printed
or counted for `last`; when printing every row is defined, `rows_fetched` ends as the
number of `OCI_SUCCESS` statuses, the loop returns when `last` is `OCI_NO_DATA` and
the program ends with exit status 1 (`ReportError`) when it is any other status; so
the loop returns only on `OCI_NO_DATA`, and ends with exit status 1 only on a status
that is neither `OCI_SUCCESS` nor `OCI_NO_DATA`. -/
theorem ReadGeometries_end_of_data_is_not_error {OCINumber double : Type} [Zero double]
    (oci : OCI OCINumber double) (fresh : Nat → malloc_contents double)
    (print_level : Int) (rows : List (SDO_GEOMETRY OCINumber × SDO_GEOMETRY_ind))
    (last : fetched OCINumber) (rest : List (fetched OCINumber))
    (hlast : last.status ≠ OCI_SUCCESS) :
    (read_geom.ReadGeometries oci fresh print_level
        (rows.map (fun row => { status := OCI_SUCCESS, row := some row })
          ++ last :: rest)).printed
      = (each_row_in_turn oci fresh print_level rows 0).printed ∧
    ((each_row_in_turn oci fresh print_level rows 0).ending = ending.returned →
      (read_geom.ReadGeometries oci fresh print_level
          (rows.map (fun row => { status := OCI_SUCCESS, row := some row })
            ++ last :: rest)).rows_fetched = rows.length ∧
      (last.status = OCI_NO_DATA →
        (read_geom.ReadGeometries oci fresh print_level
          (rows.map (fun row => { status := OCI_SUCCESS, row := some row })
            ++ last :: rest)).ending = ending.returned) ∧
      (last.status ≠ OCI_NO_DATA →
        (read_geom.ReadGeometries oci fresh print_level
          (rows.map (fun row => { status := OCI_SUCCESS, row := some row })
            ++ last :: rest)).ending = ending.exit 1)) ∧
    ((read_geom.ReadGeometries oci fresh print_level
        (rows.map (fun row => { status := OCI_SUCCESS, row := some row })
          ++ last :: rest)).ending = ending.returned →
      last.status = OCI_NO_DATA ∧
      (read_geom.ReadGeometries oci fresh print_level
          (rows.map (fun row => { status := OCI_SUCCESS, row := some row })
            ++ last :: rest)).rows_fetched = rows.length) ∧
    ((read_geom.ReadGeometries oci fresh print_level
        (rows.map (fun row => { status := OCI_SUCCESS, row := some row })
          ++ last :: rest)).ending = ending.exit 1 →
      last.status ≠ OCI_SUCCESS ∧ last.status ≠ OCI_NO_DATA) := by
  obtain ⟨i1, i2, i3⟩ := read_geom_loop_statuses oci fresh print_level rows last rest 0 hlast
  have hcount := each_row_in_turn_count oci fresh print_level rows 0
  simp only [read_geom.ReadGeometries, i1, i2, i3]
  rcases each_row_in_turn_ending oci fresh print_level rows 0 with hE | hE
  · have hc := hcount hE
    rw [if_pos hE]
    refine ⟨trivial, fun _ => ⟨by omega, fun h => by rw [if_pos h],
      fun h => by rw [if_neg h]⟩, ?_, ?_⟩
    · intro h
      by_cases hnd : last.status = OCI_NO_DATA
      · exact ⟨hnd, by omega⟩
      · rw [if_neg hnd] at h
        exact absurd h (by decide)
    · intro h
      by_cases hnd : last.status = OCI_NO_DATA
      · rw [if_pos hnd] at h
        exact absurd h (by decide)
      · exact ⟨hlast, hnd⟩
  · have hne : ¬ ((each_row_in_turn oci fresh print_level rows 0).ending
        = ending.returned) := by
      rw [hE]
      decide
    rw [if_neg hne, hE]
    refine ⟨trivial, fun h => absurd h (by decide), fun h => absurd h (by decide),
      fun h => absurd h (by decide)⟩

/-- Witness of C23: three rows with `OCI_SUCCESS` and then the status `OCI_ERROR`, with
an `OCI_NO_DATA` behind it that is never reached: the three rows are counted and the
program ends with exit status 1. -/
theorem ReadGeometries_end_of_data_is_not_error_witness :
    OCI_ERROR ≠ OCI_SUCCESS ∧
    (read_geom.ReadGeometries oci_exact fresh_examples 1
        (example_rows.map (fun row => { status := OCI_SUCCESS, row := some row })
          ++ { status := OCI_ERROR, row := none }
            :: [{ status := OCI_NO_DATA, row := none }])).rows_fetched = 3 ∧
    (read_geom.ReadGeometries oci_exact fresh_examples 1
        (example_rows.map (fun row => { status := OCI_SUCCESS, row := some row })
          ++ { status := OCI_ERROR, row := none }
            :: [{ status := OCI_NO_DATA, row := none }])).ending = ending.exit 1 :=
  ⟨by decide,
   ((ReadGeometries_end_of_data_is_not_error oci_exact fresh_examples 1 example_rows
      { status := OCI_ERROR, row := none } [{ status := OCI_NO_DATA, row := none }]
      (by decide)).2.1 (by rfl)).1,
   ((ReadGeometries_end_of_data_is_not_error oci_exact fresh_examples 1 example_rows
      { status := OCI_ERROR, row := none } [{ status := OCI_NO_DATA, row := none }]
      (by decide)).2.1 (by rfl)).2.2 (by decide)⟩

/-- C22: in the array-fetch loops, on batches returned with `OCI_SUCCESS` followed by a
first batch returned with `OCI_NO_DATA`, whatever follows. `ReadPoints` and
`ReadCities` return after displaying every row of these batches, that last batch
included, once and in order, the row at place k (from 1) under the number k; nothing
that follows `OCI_NO_DATA` is fetched; `rows_fetched` ends as the sum of the batch
sizes and `nr_fetches` as the number of batches. `ReadGeometries` of
read_geom_array.c decodes and prints the same rows each in turn, row k under the
number k, never fetches after `OCI_NO_DATA`, and ends with the same two counts when
printing every row is defined. -/
theorem array_fetch_every_row_once {OCINumber double : Type} [Zero double]
    (oci : OCI OCINumber double) (fresh : Nat → malloc_contents double)
    (print_level : Int)
    (geometries : List (fetched_batch OCINumber)) (last_geometries : fetched_batch OCINumber)
    (rest_geometries : List (fetched_batch OCINumber))
    (points : List (fetched_array (double × double)))
    (last_points : fetched_array (double × double))
    (rest_points : List (fetched_array (double × double)))
    (cities : List (fetched_array (oci_sample_array.city_row double)))
    (last_cities : fetched_array (oci_sample_array.city_row double))
    (rest_cities : List (fetched_array (oci_sample_array.city_row double)))
    (hgeometries : ∀ answer ∈ geometries, answer.status = OCI_SUCCESS)
    (hlast_geometries : last_geometries.status = OCI_NO_DATA)
    (hpoints : ∀ answer ∈ points, answer.status = OCI_SUCCESS)
    (hlast_points : last_points.status = OCI_NO_DATA)
    (hcities : ∀ answer ∈ cities, answer.status = OCI_SUCCESS)
    (hlast_cities : last_cities.status = OCI_NO_DATA) :
    ((read_geom_array.ReadGeometries oci fresh print_level
          (geometries ++ last_geometries :: rest_geometries)).printed
        = (each_row_in_turn oci fresh print_level
            ((geometries.map (fun answer => answer.rows)).flatten ++ last_geometries.rows)
            0).printed ∧
      (read_geom_array.ReadGeometries oci fresh print_level
          (geometries ++ last_geometries :: rest_geometries)).ending
        = (each_row_in_turn oci fresh print_level
            ((geometries.map (fun answer => answer.rows)).flatten ++ last_geometries.rows)
            0).ending ∧
      ((each_row_in_turn oci fresh print_level
            ((geometries.map (fun answer => answer.rows)).flatten ++ last_geometries.rows)
            0).ending = ending.returned →
        (read_geom_array.ReadGeometries oci fresh print_level
            (geometries ++ last_geometries :: rest_geometries)).rows_fetched
          = (((geometries ++ [last_geometries]).map
              (fun answer => answer.rows.length)).sum : Nat) ∧
        (read_geom_array.ReadGeometries oci fresh print_level
            (geometries ++ last_geometries :: rest_geometries)).nr_fetches
          = (geometries ++ [last_geometries]).length) ∧
      read_geom_array.ReadGeometries oci fresh print_level
          (geometries ++ last_geometries :: rest_geometries)
        = read_geom_array.ReadGeometries oci fresh print_level
          (geometries ++ [last_geometries])) ∧
    ((read_points_array.ReadPoints (points ++ last_points :: rest_points)).ending
        = ending.returned ∧
      (∀ i : Nat,
        (read_points_array.ReadPoints (points ++ last_points :: rest_points)).printed[i]?
          = (((points.map (fun answer => answer.rows)).flatten ++ last_points.rows)[i]?).map
            (fun row => ((i : Int) + 1, row))) ∧
      (read_points_array.ReadPoints (points ++ last_points :: rest_points)).rows_fetched
        = (((points ++ [last_points]).map (fun answer => answer.rows.length)).sum : Nat) ∧
      (read_points_array.ReadPoints (points ++ last_points :: rest_points)).nr_fetches
        = (points ++ [last_points]).length ∧
      read_points_array.ReadPoints (points ++ last_points :: rest_points)
        = read_points_array.ReadPoints (points ++ [last_points])) ∧
    ((oci_sample_array.ReadCities (cities ++ last_cities :: rest_cities)).ending
        = ending.returned ∧
      (∀ i : Nat,
        (oci_sample_array.ReadCities (cities ++ last_cities :: rest_cities)).printed[i]?
          = (((cities.map (fun answer => answer.rows)).flatten ++ last_cities.rows)[i]?).map
            (fun row => ((i : Int) + 1, row))) ∧
      (oci_sample_array.ReadCities (cities ++ last_cities :: rest_cities)).rows_fetched
        = (((cities ++ [last_cities]).map (fun answer => answer.rows.length)).sum : Nat) ∧
      (oci_sample_array.ReadCities (cities ++ last_cities :: rest_cities)).nr_fetches
        = (cities ++ [last_cities]).length ∧
      oci_sample_array.ReadCities (cities ++ last_cities :: rest_cities)
        = oci_sample_array.ReadCities (cities ++ [last_cities])) := by
  refine ⟨?_, ?_, ?_⟩
  · obtain ⟨i1, i2, i3, i4⟩ := read_geom_array_loop_batches oci fresh print_level geometries
      last_geometries rest_geometries 0 0 hgeometries hlast_geometries
    have hsum := batches_length (fun answer : fetched_batch OCINumber => answer.rows)
      geometries last_geometries
    simp only at hsum
    refine ⟨i1, i3, ?_, ?_⟩
    · intro hret
      have hcount := each_row_in_turn_count oci fresh print_level _ 0 hret
      have hfetches := i4 hret
      simp only [read_geom_array.ReadGeometries]
      rw [i2, hcount, hfetches, hsum]
      refine ⟨by omega, ?_⟩
      simp only [List.length_append, List.length_singleton]
      push_cast
      omega
    · exact read_geom_array_loop_stops oci fresh print_level geometries last_geometries
        rest_geometries 0 0 hlast_geometries
  · obtain ⟨i1, i2, i3, i4⟩ := array_fetch_loop_batches points last_points rest_points 0 0
      hpoints hlast_points
    have hsum := batches_length (fun answer : fetched_array (double × double) => answer.rows)
      points last_points
    simp only at hsum
    simp only [read_points_array.ReadPoints]
    refine ⟨i4, ?_, ?_, ?_, ?_⟩
    · intro i
      rw [i1, display_batch_line]
      simp only [zero_add]
    · rw [i2, hsum]
      omega
    · rw [i3]
      simp only [List.length_append, List.length_singleton]
      push_cast
      omega
    · exact array_fetch_loop_stops points last_points rest_points 0 0 hlast_points
  · obtain ⟨i1, i2, i3, i4⟩ := array_fetch_loop_batches cities last_cities rest_cities 0 0
      hcities hlast_cities
    have hsum := batches_length
      (fun answer : fetched_array (oci_sample_array.city_row double) => answer.rows)
      cities last_cities
    simp only at hsum
    simp only [oci_sample_array.ReadCities]
    refine ⟨i4, ?_, ?_, ?_, ?_⟩
    · intro i
      rw [i1, display_batch_line]
      simp only [zero_add]
    · rw [i2, hsum]
      omega
    · rw [i3]
      simp only [List.length_append, List.length_singleton]
      push_cast
      omega
    · exact array_fetch_loop_stops cities last_cities rest_cities 0 0 hlast_cities

/-- Witness of C22: two batches of three points and a last batch of one, with a failing
answer behind them that is never asked for, give 7 rows numbered 1 to 7 in 3 fetches;
two cities and an empty last batch give 2 rows in 2 fetches; two geometries and a last
batch of one give rows 1 to 3 in 2 fetches,
printed at level 1. -/
theorem array_fetch_every_row_once_witness :
    ((∀ answer ∈ example_geometry_batches, answer.status = OCI_SUCCESS) ∧
      example_geometry_last_batch.status = OCI_NO_DATA ∧
      (∀ answer ∈ example_point_batches, answer.status = OCI_SUCCESS) ∧
      example_point_last_batch.status = OCI_NO_DATA ∧
      (∀ answer ∈ example_city_batches, answer.status = OCI_SUCCESS) ∧
      example_city_last_batch.status = OCI_NO_DATA) ∧
    (read_points_array.ReadPoints (example_point_batches ++ example_point_last_batch
        :: [{ status := OCI_ERROR, rows := [] }])).ending = ending.returned ∧
    read_points_array.ReadPoints (example_point_batches ++ example_point_last_batch
        :: [{ status := OCI_ERROR, rows := [] }])
      = { printed := [(1, (1.5, 2.5)), (2, (3.5, 4.5)), (3, (5.5, 6.5)), (4, (7.5, 8.5)),
                      (5, (9.5, 10.5)), (6, (11.5, 12.5)), (7, (13.5, 14.5))],
          rows_fetched := 7, nr_fetches := 3, ending := ending.returned } ∧
    (oci_sample_array.ReadCities (example_city_batches ++ example_city_last_batch
        :: [])).rows_fetched = 2 ∧
    (oci_sample_array.ReadCities (example_city_batches ++ example_city_last_batch
        :: [])).nr_fetches = 2 ∧
    (read_geom_array.ReadGeometries oci_exact fresh_examples 1
        (example_geometry_batches ++ example_geometry_last_batch
          :: [{ status := OCI_ERROR, rows := [] }]))
      = { printed := [printed.Row 1, printed.Geometry, printed.Type_ 2 (some "LINESTRING"),
                      printed.Dimensions 2, printed.Spatial_reference_system 8307,
                      printed.Elements 1, printed.Points 2,
                      printed.Row 2, printed.Geometry, printed.Type_ 1 (some "POINT"),
                      printed.Dimensions 3, printed.Spatial_reference_system 8307,
                      printed.Elements 0, printed.Points 0,
                      printed.Row 3, printed.Geometry, printed.Type_ 2 (some "LINESTRING"),
                      printed.Dimensions 2, printed.Spatial_reference_system 8307,
                      printed.Elements 1, printed.Points 1],
          rows_fetched := 3, nr_fetches := 2, ending := ending.returned } :=
  ⟨⟨by decide, by decide, by decide, by decide, by decide, by decide⟩,
   (array_fetch_every_row_once oci_exact fresh_examples 1
      example_geometry_batches example_geometry_last_batch
      [{ status := OCI_ERROR, rows := [] }]
      example_point_batches example_point_last_batch [{ status := OCI_ERROR, rows := [] }]
      example_city_batches example_city_last_batch []
      (by decide) (by decide) (by decide) (by decide) (by decide) (by decide)).2.1.1,
   by rfl, by rfl, by rfl, by rfl⟩

/-! ## select_pois: the placeholder of a null phone number -/

/-- C26: in `ReadPois` of select_pois.c, every row fetched with `OCI_SUCCESS` before the
first other status is printed on one line under its number, with the text
"NO TELEPHONE" as phone number when the indicator of `PHONE_NUMBER` is `OCI_IND_NULL`
and with the fetched phone number when it is not; the placeholder has 12 characters
and, with the terminator, fits the buffer of `PHONE_NUMBER_LENGTH + 1` = 16 bytes. -/
theorem ReadPois_phone_number_or_placeholder (rows : List select_pois.poi_fetched)
    (last : select_pois.poi_fetched) (rest : List select_pois.poi_fetched)
    (i : Nat) (answer : select_pois.poi_fetched)
    (hrows : ∀ row ∈ rows, row.status = OCI_SUCCESS)
    (hlast : last.status ≠ OCI_SUCCESS)
    (hi : rows[i]? = some answer) :
    (∃ line, (select_pois.ReadPois (rows ++ last :: rest)).printed[i]? = some line ∧
      line.rows_fetched = i + 1 ∧ line.id = answer.id ∧ line.poi_name = answer.poi_name ∧
      (answer.phone_number_ind = OCI_IND_NULL → line.phone_number = "NO TELEPHONE") ∧
      (answer.phone_number_ind ≠ OCI_IND_NULL →
        line.phone_number = answer.phone_number)) ∧
    "NO TELEPHONE".length = 12 ∧
    "NO TELEPHONE".utf8ByteSize + 1 ≤ select_pois.PHONE_NUMBER_LENGTH + 1 ∧
    select_pois.PHONE_NUMBER_LENGTH + 1 = 16 := by
  refine ⟨?_, by decide, by decide, by decide⟩
  have hline := ReadPois_loop_lines rows last rest 0 hrows hlast i
  rw [hi] at hline
  simp only [Option.map_some', zero_add] at hline
  refine ⟨_, hline, rfl, rfl, rfl, ?_, ?_⟩
  · intro hnull
    simp only [if_pos hnull]
  · intro hnotnull
    simp only [if_neg hnotnull]

/-- Witness of C26: of three rows the second has a null phone number; its line shows
"NO TELEPHONE" under the number 2, and the lines before and after show their own
numbers. -/
theorem ReadPois_phone_number_or_placeholder_witness :
    ((∀ row ∈ example_pois, row.status = OCI_SUCCESS) ∧
      example_pois_end.status ≠ OCI_SUCCESS ∧
      example_pois[1]? = some
        { status := OCI_SUCCESS, id := 9, poi_name := "OLD FORT",
          phone_number := "4155554000", phone_number_ind := OCI_IND_NULL }) ∧
    (∃ line, (select_pois.ReadPois (example_pois ++ example_pois_end :: [])).printed[1]?
        = some line ∧
      line.rows_fetched = ((1 : Nat) : Int) + 1 ∧ line.id = 9 ∧ line.poi_name = "OLD FORT" ∧
      (OCI_IND_NULL = OCI_IND_NULL → line.phone_number = "NO TELEPHONE") ∧
      (OCI_IND_NULL ≠ OCI_IND_NULL → line.phone_number = "4155554000")) ∧
    select_pois.ReadPois (example_pois ++ example_pois_end :: [])
      = { printed := [{ rows_fetched := 1, id := 7, poi_name := "CITY HALL",
                        phone_number := "4155554000" },
                      { rows_fetched := 2, id := 9, poi_name := "OLD FORT",
                        phone_number := "NO TELEPHONE" },
                      { rows_fetched := 3, id := 12, poi_name := "PIER 39",
                        phone_number := "4155551212" }],
          rows_fetched := 3, ending := ending.returned } :=
  ⟨⟨by decide, by decide, by rfl⟩,
   (ReadPois_phone_number_or_placeholder example_pois example_pois_end [] 1
      { status := OCI_SUCCESS, id := 9, poi_name := "OLD FORT",
        phone_number := "4155554000", phone_number_ind := OCI_IND_NULL }
      (by decide) (by decide) (by rfl)).1,
   by decide⟩

end OracleSpatial
